import Mathlib

/-!
Verification development for the reconstruction-graph generator
(`tools/common/regraph.py`) of the Fusion360GalleryDataset repository.

The Python source drives a B-Rep CAD backend (the Fusion 360 kernel).  The
backend itself is out of scope of the spec; here it is embedded as explicit
data: a `Design` carries, for every timeline marker position, the list of
solid bodies with their faces and edges, and every extrude feature carries
the face collections it reports at a given marker position.  Floating point
areas and coordinates are embedded as exact rationals; Python `dict`s keyed
by uuid strings are embedded as functions `Nat → Option _` (uuids are
numbered); fallible Python code (assert / raise / KeyError / unbound local)
returns `Except Err _`.

The helper modules `name`, `geometry`, `serialize`, `deserialize`,
`exceptions` imported by `regraph.py` are not part of the given sources;
they are modelled from the spec (identity namer, §4.1) or as abstract
backend capabilities (`Geometry` record of geometric predicates).
-/

/-- 3d vector / point with exact rational coordinates (backend geometry). -/
structure Vec3 where
  x : ℚ
  y : ℚ
  z : ℚ
deriving DecidableEq, Repr

/-- `adsk.core.Plane`: a plane given by origin and normal. -/
structure GPlane where
  origin : Vec3
  normal : Vec3
deriving DecidableEq, Repr

/-- The geometry handle of a face (`face.geometry`): either a backend plane
(`adsk.core.Plane`) or some other surface kind. -/
inductive SurfaceGeom where
  | planeSurf (p : GPlane)
  | otherSurf (kind : String)
deriving DecidableEq, Repr

/-- A B-Rep face as observed through the backend.  `token` is the backend's
persistent naming token consulted by the identity namer; `tempId` is the
transient id (`face.tempId` analogue); `area` is `face.area`; `bodyRev` is
`face.body.revisionId`.  Geometric evaluator outputs not referenced by any
claim (normals, curvature, parametric samples) are left abstract in the
`Geometry` capability record. -/
structure Face where
  token : Nat
  tempId : Nat
  area : ℚ
  bodyRev : Nat
  geometry : SurfaceGeom
deriving DecidableEq, Repr

instance : Inhabited Face := ⟨⟨0, 0, 0, 0, .otherSurf "default"⟩⟩

/-- A B-Rep edge: `faces` is `edge.faces`, the adjacent faces reported by
the backend (the code asserts there are exactly two). -/
structure Edge where
  token : Nat
  tempId : Nat
  faces : List Face
deriving DecidableEq, Repr

instance : Inhabited Edge := ⟨⟨0, 0, []⟩⟩

/-- One entry of `body.faces`: the face together with `face.edges`, the
edges bounding it.  (Faces and edges reference each other in a B-Rep; the
embedding breaks the cycle by listing the incident edges next to each face
at the body level.) -/
structure FaceEntry where
  face : Face
  edges : List Edge
deriving DecidableEq, Repr

/-- A solid body (`adsk.fusion.BRepBody`): revision id, faces (each with its
incident edges), edges, and the backend's declared concave edges. -/
structure Body where
  revisionId : Nat
  faces : List FaceEntry
  edges : List Edge
  concaveEdges : List Edge
deriving DecidableEq, Repr

/-- The abstract geometric capabilities of the backend that the missing
`geometry` helper module wraps (§4.2 of the spec): tangential connectivity
and perpendicularity of two faces, coplanarity of two planes, and the
component bounding box. -/
structure Geometry where
  tangentiallyConnected : Face → Face → Bool
  perpendicular : Face → Face → Bool
  isCoPlanarTo : GPlane → GPlane → Bool
  boundingBoxMin : Vec3
  boundingBoxMax : Vec3

/-- `adsk.fusion.FeatureOperations` members used by the code. -/
inductive FeatureOperation where
  | joinOp
  | cutOp
  | intersectOp
  | newBodyOp
  | newComponentOp
deriving DecidableEq, Repr

/-- `serialize.feature_operation`: the serialized name of an operation kind
(the strings appear verbatim in `RegraphTester.test_per_face_sequence`,
regraph.py lines 850-855). -/
def serialize_feature_operation : FeatureOperation → String
  | .joinOp => "JoinFeatureOperation"
  | .cutOp => "CutFeatureOperation"
  | .intersectOp => "IntersectFeatureOperation"
  | .newBodyOp => "NewBodyFeatureOperation"
  | .newComponentOp => "NewComponentFeatureOperation"

/-- `adsk.fusion.FeatureExtentTypes`. -/
inductive ExtentType where
  | oneSide
  | twoSides
  | symmetricExtent
deriving DecidableEq, Repr

/-- An extent definition (`extrude.extentOne` / `extentTwo`): either an
`adsk.fusion.DistanceExtentDefinition` carrying the distance value, or some
other definition kind identified by its `objectType` string. -/
inductive ExtentDef where
  | distanceExtent (distance : ℚ)
  | otherExtent (objectType : String)
deriving DecidableEq, Repr

/-- The value of a taper angle model parameter (`extrude.taperAngleOne.value`):
the code distinguishes `None`, the empty string, and a number. -/
inductive TaperValue where
  | noneValue
  | emptyString
  | numValue (q : ℚ)
deriving DecidableEq, Repr

/-- `extrude.startExtent` offset payload (`OffsetStartDefinition.offset`). -/
inductive OffsetVal where
  | modelParam (q : ℚ)
  | viReal (q : ℚ)
  | viString (q : ℚ)
  | viOther
deriving DecidableEq, Repr

/-- `extrude.startExtent` (`ProfilePlaneStartDefinition` /
`OffsetStartDefinition` / anything else). -/
inductive StartDef where
  | profilePlaneStart
  | offsetStart (v : OffsetVal)
  | otherStart
deriving DecidableEq, Repr

/-- The sketch profile referenced by an extrude
(`extrude.profile`): a single `Profile`, an `ObjectCollection` of profiles,
or something else (which makes `get_extrude_sketch_profile` raise).  The
origin/normal carried are the sketch origin and the profile plane normal
already transformed by the sketch transform (backend computation). -/
inductive ProfileRef where
  | singleProfile (origin normal : Vec3)
  | profileCollection (origin normal : Vec3)
  | badProfile
deriving DecidableEq, Repr

/-- An `adsk.fusion.ExtrudeFeature` as observed through the backend.  The
face collections (`startFaces`, `endFaces`, `sideFaces`) depend on the
timeline marker position, hence are functions of the marker. -/
structure ExtrudeFeature where
  operation : FeatureOperation
  startFacesAt : Nat → List Face
  endFacesAt : Nat → List Face
  sideFacesAt : Nat → List Face
  extentType : ExtentType
  extentOne : Option ExtentDef
  extentTwo : Option ExtentDef
  taperAngleOne : Option TaperValue
  taperAngleTwo : Option TaperValue
  startExtent : StartDef
  profileRef : ProfileRef

/-- A timeline entry: an extrude feature or some other entity (sketch,
plane, ...), which `generate` skips. -/
inductive TimelineEntity where
  | extrudeEnt (e : ExtrudeFeature)
  | otherEnt

/-- The design under processing: the ordered timeline and, for every
marker position, the bodies of the target component
(`target_component.bRepBodies` observed at that marker). -/
structure Design where
  timeline : List TimelineEntity
  bodiesAt : Nat → List Body

/-- All faces of the target component's bodies at a marker position. -/
def facesAt (d : Design) (m : Nat) : List Face :=
  (d.bodiesAt m).flatMap (fun b => b.faces.map (·.face))

/-- The edges visited by the `add_edges_to_cache` scan at a marker position
(every `edge` of every `face.edges` of every body, in scan order). -/
def scanAt (d : Design) (m : Nat) : List Edge :=
  (d.bodiesAt m).flatMap (fun b => b.faces.flatMap (·.edges))

/-- All edges of the target component's bodies (`body.edges`) at a marker. -/
def bodyEdgesAt (d : Design) (m : Nat) : List Edge :=
  (d.bodiesAt m).flatMap (·.edges)

/-- Errors raised by the Python code: failed `assert`, missing `dict` key,
`exceptions.UnsupportedException`, unbound local / `NameError`, and plain
`Exception`. -/
inductive Err where
  | assertionError (msg : String)
  | keyError (msg : String)
  | unsupportedExc (msg : String)
  | nameError (msg : String)
  | exc (msg : String)
deriving DecidableEq, Repr

-- -------------------------------------------------------------------------
-- Identity namer (the `name` module is not among the given sources)
-- -------------------------------------------------------------------------

/-- Association-list lookup used by the namer table. -/
def lookupTok : List (Nat × Nat) → Nat → Option Nat
  | [], _ => none
  | p :: rest, t => if p.1 = t then some p.2 else lookupTok rest t

/-- Modelled from the spec: the Identity Namer (§4.1) of the missing `name`
module.  It maintains a table from the backend's persistent token to the
assigned identity and a fresh-identity counter; uuids are embedded as
naturals. -/
structure Namer where
  table : List (Nat × Nat)
  next : Nat
deriving DecidableEq, Repr

/-- Modelled from the spec: `name.get_uuid(entity)` returns the previously
assigned identity or indicates that none exists. -/
def name_get_uuid (n : Namer) (token : Nat) : Option Nat :=
  lookupTok n.table token

/-- Modelled from the spec: `name.set_uuid(entity)` assigns a fresh identity
if absent, or returns the existing one; deterministic and idempotent. -/
def name_set_uuid (n : Namer) (token : Nat) : Nat × Namer :=
  match lookupTok n.table token with
  | some u => (u, n)
  | none => (n.next, ⟨(token, n.next) :: n.table, n.next + 1⟩)

/-- Modelled from the spec: `name.get_temp_ids_from_collection(entities)` -
bulk extraction of the transient ids of a collection of edges, used for
concavity membership testing within one cache-refresh pass. -/
def name_get_temp_ids_from_collection (edges : List Edge) : List Nat :=
  edges.map (·.tempId)

-- -------------------------------------------------------------------------
-- Caches, graph records, output data (Regraph.__init__)
-- -------------------------------------------------------------------------

/-- Per-identity face metadata kept in `Regraph.face_cache` (spec §3). -/
structure FaceMeta where
  operation_label : String
  last_operation_label : Bool
deriving DecidableEq, Repr

/-- Per-identity edge metadata kept in `Regraph.edge_cache`.  `source` and
`target` hold the result of `name.get_uuid` on the edge's two adjacent
faces (`None` is stored as-is by the Python code); `convexity` is present
only in `PerExtrude` mode. -/
structure EdgeMeta where
  temp_id : Nat
  source : Option Nat
  target : Option Nat
  convexity : Option String
deriving DecidableEq, Repr

/-- A graph node record (`get_face_data*`).  Fields produced only in one of
the two modes are `Option`s; geometric evaluator outputs that no claim
references (normals, curvature, parametric samples) are omitted. -/
structure NodeData where
  id : Nat
  operation_label : Option String
  last_operation_label : Option Bool
  area : Option ℚ
deriving DecidableEq, Repr

/-- A graph link record (`get_edge_data*`).  Evaluator outputs that no claim
references (curve type, length, direction, curvature) are omitted. -/
structure LinkData where
  id : Nat
  source : Option Nat
  target : Option Nat
  convexity : Option String
  perpendicular : Option Bool
deriving DecidableEq, Repr

/-- The graph container produced by `get_empty_graph` (regraph.py 537-545). -/
structure Graph where
  directed : Bool
  multigraph : Bool
  nodes : List NodeData
  links : List LinkData
deriving DecidableEq, Repr

/-- `get_empty_graph` (regraph.py lines 537-545). -/
def get_empty_graph : Graph :=
  { directed := false, multigraph := false, nodes := [], links := [] }

/-- One entry of `Regraph.sequence` in `PerFace` mode
(`add_extrude_faces_to_sequence`, regraph.py lines 275-279). -/
structure SeqEntry where
  start_face : Nat
  end_face : Nat
  operation : String
deriving DecidableEq, Repr

/-- One entry of `data["sequences"]` (`generate_last`, lines 148-153). -/
structure SeqData where
  sequence : List SeqEntry
  bounding_box_min : Vec3
  bounding_box_max : Vec3
deriving DecidableEq, Repr

/-- The output data structure `Regraph.data` (regraph.py lines 44-48). -/
structure RegraphData where
  graphs : List Graph
  sequences : List SeqData
  status : List String
deriving DecidableEq, Repr

/-- The mutable state of a `Regraph` instance: the two caches, the namer
(module-global in Python), the per-face sequence, the timeline marker, and
the output data. -/
structure RState where
  face_cache : Nat → Option FaceMeta
  edge_cache : Nat → Option EdgeMeta
  namer : Namer
  sequence : List SeqEntry
  marker : Nat
  current_extrude_index : Nat
  data : RegraphData

/-- The initial state of `Regraph.__init__` plus the initial marker of
`generate` (designs arrive fully rolled to the end of the timeline, so the
marker starts at `timeline.length`). -/
def initState (d : Design) : RState :=
  { face_cache := fun _ => none
    edge_cache := fun _ => none
    namer := ⟨[], 0⟩
    sequence := []
    marker := d.timeline.length
    current_extrude_index := 0
    data := ⟨[], [], []⟩ }

-- -------------------------------------------------------------------------
-- FEATURES (regraph.py 375-452)
-- -------------------------------------------------------------------------

/-- `Regraph.get_edge_convexity` (regraph.py lines 375-384): initializes the
result to `"Convex"`, overrides with `"Concave"` when the edge is in the
concave-edge set, else with `"Smooth"` when the two adjacent faces are
tangentially connected. -/
def get_edge_convexity (geo : Geometry) (edge : Edge) (is_concave : Bool) : String :=
  let is_tc := geo.tangentiallyConnected (edge.faces.getD 0 default) (edge.faces.getD 1 default)
  let convexity := "Convex"
  if is_concave then "Concave"
  else if is_tc then "Smooth"
  else convexity

-- -------------------------------------------------------------------------
-- FILTER (regraph.py 458-531)
-- -------------------------------------------------------------------------

/-- `Regraph.is_extrude_tapered` (regraph.py lines 515-531): the taper check
fires only for a `DistanceExtentDefinition` extent whose taper angle value
is present, non-empty, and non-zero; `extentTwo` is consulted only for
two-sided extents. -/
def is_extrude_tapered (e : ExtrudeFeature) : Bool :=
  let one :=
    match e.extentOne with
    | some (.distanceExtent _) =>
      match e.taperAngleOne with
      | some (.numValue q) => q != 0
      | _ => false
    | _ => false
  if one then true
  else
    if e.extentType = .twoSides then
      match e.extentTwo with
      | some (.distanceExtent _) =>
        match e.taperAngleTwo with
        | some (.numValue q) => q != 0
        | _ => false
      | _ => false
    else false

/-- `Regraph.is_extrude_supported` (regraph.py lines 458-479), with the
marker position made explicit (the face counts are read at the current
marker).  Returns `(supported, reason)`. -/
def is_extrude_supported (mode : String) (e : ExtrudeFeature) (m : Nat) :
    Bool × Option String :=
  let reason : Option String :=
    if is_extrude_tapered e then some "Extrude has taper" else none
  let reason : Option String :=
    match reason with
    | some r => some r
    | none =>
      if mode = "PerExtrude" then
        if e.operation = .intersectOp then some "Extrude has intersect operation"
        else none
      else if mode = "PerFace" then
        if (e.endFacesAt m).length = 0 ∧ (e.startFacesAt m).length = 0 then
          some "Extrude doesn't have start or end faces"
        else none
      else none
  match reason with
  | some r => (false, some r)
  | none => (true, none)

-- -------------------------------------------------------------------------
-- DATA CACHING (regraph.py 167-369)
-- -------------------------------------------------------------------------

/-- `Regraph.get_extrude_operation` (regraph.py lines 167-174): serialized
operation string and its short form, collapsing `NewBody`/`Join` to
`Extrude`; asserts the operation is not `NewComponent`. -/
def get_extrude_operation (op : FeatureOperation) : Except Err (String × String) :=
  let operation := serialize_feature_operation op
  -- `operation.replace("FeatureOperation", "")` evaluated on the closed set
  -- of serialized operation names
  let operation_short : String :=
    match op with
    | .joinOp => "Join"
    | .cutOp => "Cut"
    | .intersectOp => "Intersect"
    | .newBodyOp => "NewBody"
    | .newComponentOp => "NewComponent"
  if operation_short = "NewComponent" then
    .error (.assertionError "operation_short != NewComponent")
  else
    let operation_short :=
      if operation_short = "NewBody" ∨ operation_short = "Join" then "Extrude"
      else operation_short
    .ok (operation, operation_short)

/-- The loop body of `Regraph.add_extrude_faces_to_cache` (regraph.py lines
188-198): assigns an identity to one reported face and (over)writes its
metadata with the `operation_label` for this location and
`last_operation_label = True`. -/
def add_extrude_faces_to_cache_step (operation_short : String)
    (extrude_face_location : String) (st : RState) (face : Face) : RState :=
  let face_uuid := (name_set_uuid st.namer face.token).1
  let namer := (name_set_uuid st.namer face.token).2
  { st with
    namer := namer
    face_cache := fun u =>
      if u = face_uuid then
        some { operation_label := operation_short ++ extrude_face_location
               last_operation_label := true }
      else st.face_cache u }

/-- `Regraph.add_extrude_faces_to_cache` (regraph.py lines 186-198). -/
def add_extrude_faces_to_cache (st : RState) (faces : List Face)
    (operation_short : String) (extrude_face_location : String) : RState :=
  faces.foldl (add_extrude_faces_to_cache_step operation_short extrude_face_location) st

/-- `Regraph.add_extrude_to_cache` (regraph.py lines 176-184): resets
`last_operation_label` of every cached face to `False`, then caches the
extrude's start, end, and side faces (as reported at the current marker)
with the flag `True`. -/
def add_extrude_to_cache (st : RState) (e : ExtrudeFeature) : Except Err RState :=
  let st := { st with
    face_cache := fun u =>
      (st.face_cache u).map (fun m => { m with last_operation_label := false }) }
  match get_extrude_operation e.operation with
  | .error er => .error er
  | .ok (_, operation_short) =>
    let st := add_extrude_faces_to_cache st (e.startFacesAt st.marker) operation_short "Start"
    let st := add_extrude_faces_to_cache st (e.endFacesAt st.marker) operation_short "End"
    let st := add_extrude_faces_to_cache st (e.sideFacesAt st.marker) operation_short "Side"
    .ok st

/-- The body of the edge-scan loop of `Regraph.add_edges_to_cache`
(regraph.py lines 208-223), processing one edge: asserts the edge has
exactly two adjacent faces, assigns it an identity, and (over)writes its
cache entry with the identities of its two adjacent faces as source/target
(storing whatever `name.get_uuid` returns, possibly `None`), plus the
convexity classification in `PerExtrude` mode. -/
def scanEdge (geo : Geometry) (mode : String) (concave_edge_cache : List Nat)
    (st : RState) (edge : Edge) : Except Err RState :=
  if edge.faces.length ≠ 2 then
    .error (.assertionError "edge_faces.count == 2")
  else
    let edge_uuid := (name_set_uuid st.namer edge.token).1
    let namer := (name_set_uuid st.namer edge.token).2
    let edge_temp_id := edge.tempId
    let edge_concave := edge_temp_id ∈ concave_edge_cache
    let meta : EdgeMeta :=
      { temp_id := edge_temp_id
        source := name_get_uuid namer (edge.faces.getD 0 default).token
        target := name_get_uuid namer (edge.faces.getD 1 default).token
        convexity :=
          if mode = "PerExtrude" then some (get_edge_convexity geo edge edge_concave)
          else none }
    .ok { st with
      namer := namer
      edge_cache := fun u => if u = edge_uuid then some meta else st.edge_cache u }

/-- The edge scan of `add_edges_to_cache` as a fold over the scan list. -/
def scanEdges (geo : Geometry) (mode : String) (concave_edge_cache : List Nat)
    (st : RState) : List Edge → Except Err RState
  | [] => .ok st
  | e :: rest =>
    match scanEdge geo mode concave_edge_cache st e with
    | .error er => .error er
    | .ok st1 => scanEdges geo mode concave_edge_cache st1 rest

/-- `Regraph.add_edges_to_cache` (regraph.py lines 200-236): collects the
concave-edge temp ids of all bodies, then rebuilds the edge cache by
scanning every edge of every face of every body. -/
def add_edges_to_cache (geo : Geometry) (mode : String) (st : RState)
    (bodies : List Body) : Except Err RState :=
  let concave_edge_cache :=
    bodies.flatMap (fun b => name_get_temp_ids_from_collection b.concaveEdges)
  scanEdges geo mode concave_edge_cache st
    (bodies.flatMap (fun b => b.faces.flatMap (·.edges)))

-- -------------------------------------------------------------------------
-- Start/end face selection (regraph.py 283-363)
-- -------------------------------------------------------------------------

/-- Python `math.isclose(a, b, abs_tol=0.01)` on exact rationals:
`abs(a-b) <= max(rel_tol*max(abs(a), abs(b)), abs_tol)` with the default
`rel_tol = 1e-9` and the explicit `abs_tol = 0.01` (regraph.py line 323). -/
def mathIsclose (a b : ℚ) : Bool :=
  |a - b| ≤ max ((1 / 1000000000) * max |a| |b|) (1 / 100)

/-- The default start-face priority (regraph.py lines 331-338): prefer a
single start face, else a single end face; with no single candidate the
Python local `start_face` stays unbound (modelled as `none`). -/
def startFaceDefaultPriority (e : ExtrudeFeature) (m : Nat) :
    Option Face × Bool × Nat :=
  if (e.startFacesAt m).length = 1 then ((e.startFacesAt m).head?, false, m)
  else if (e.endFacesAt m).length = 1 then ((e.endFacesAt m).head?, true, m)
  else (none, false, m)

/-- `Regraph.get_extrude_start_face` (regraph.py lines 283-339).  `m` is the
current timeline marker, `T` the end-of-timeline position (`moveToEnd`).
Returns the chosen start face (`none` when the Python local would be
unbound), the start/end-flipped flag, and the marker position afterwards.
The face collections are re-read from the backend after every marker move,
exactly as the source does. -/
def get_extrude_start_face (e : ExtrudeFeature) (m T : Nat) :
    Option Face × Bool × Nat :=
  if (e.startFacesAt m).length = 1 ∧ (e.endFacesAt m).length = 1 then
    let prev := m
    let m1 := T
    -- lines 299-310: either collection may have changed after moveToEnd
    let step1 : Option Face × Bool × Bool × Nat :=
      if (e.startFacesAt m1).length = 0 then
        if (e.endFacesAt m1).length > 0 then
          ((e.endFacesAt m1).head?, true, true, prev)
        else (none, false, false, prev)
      else if (e.endFacesAt m1).length = 0 then
        if (e.startFacesAt m1).length > 0 then
          ((e.startFacesAt m1).head?, false, true, prev)
        else (none, false, false, prev)
      else (none, false, false, m1)
    let (sf1, fl1, set1, m2) := step1
    -- lines 313-330: area-based choice when both collections are non-empty
    let step2 : Option Face × Bool × Bool × Nat :=
      if (e.startFacesAt m2).length > 0 ∧ (e.endFacesAt m2).length > 0 then
        let sf_area := ((e.startFacesAt m2).headD default).area
        let ef_area := ((e.endFacesAt m2).headD default).area
        let m3 := prev
        if ¬ mathIsclose sf_area ef_area then
          if sf_area > ef_area then ((e.startFacesAt m3).head?, false, true, m3)
          else ((e.endFacesAt m3).head?, true, true, m3)
        else (sf1, fl1, set1, m3)
      else (sf1, fl1, set1, m2)
    let (sf2, fl2, set2, m4) := step2
    if ¬ set2 then startFaceDefaultPriority e m4
    else (sf2, fl2, m4)
  else
    startFaceDefaultPriority e m

/-- `Regraph.offset_point_by_distance` (regraph.py lines 717-723). -/
def offset_point_by_distance (point vector : Vec3) (distance : ℚ) : Vec3 :=
  ⟨point.x + distance * vector.x,
   point.y + distance * vector.y,
   point.z + distance * vector.z⟩

/-- `Regraph.get_extrude_offset` (regraph.py lines 733-751).  The
`StringValueType` branch references an undefined local `value_input` in the
source (line 749) and therefore raises `NameError`. -/
def get_extrude_offset (e : ExtrudeFeature) : Except Err ℚ :=
  match e.startExtent with
  | .profilePlaneStart => .ok 0
  | .offsetStart v =>
    match v with
    | .modelParam q => .ok q
    | .viReal q => .ok q
    | .viString _ => .error (.nameError "value_input is not defined")
    | .viOther => .ok 0
  | .otherStart => .ok 0

/-- `Regraph.get_extrude_sketch_profile` (regraph.py lines 701-708). -/
def get_extrude_sketch_profile (e : ExtrudeFeature) : Except Err (Vec3 × Vec3) :=
  match e.profileRef with
  | .singleProfile origin normal => .ok (origin, normal)
  | .profileCollection origin normal => .ok (origin, normal)
  | .badProfile => .error (.exc "Extrude sketch profile error")

/-- `Regraph.get_extrude_start_plane` (regraph.py lines 690-699). -/
def get_extrude_start_plane (e : ExtrudeFeature) : Except Err GPlane :=
  match get_extrude_offset e with
  | .error er => .error er
  | .ok extrude_offset =>
    match get_extrude_sketch_profile e with
    | .error er => .error er
    | .ok (sketch_origin, sketch_normal) =>
      let origin :=
        if extrude_offset ≠ 0 then
          offset_point_by_distance sketch_origin sketch_normal extrude_offset
        else sketch_origin
      .ok ⟨origin, sketch_normal⟩

/-- `Regraph.get_extrude_distance` (regraph.py lines 725-731). -/
def get_extrude_distance (e : ExtrudeFeature) : Except Err ℚ :=
  if e.extentType ≠ .oneSide then
    .error (.unsupportedExc "Unsupported Extent Type")
  else
    match e.extentOne with
    | some (.distanceExtent distance) => .ok distance
    | _ => .error (.unsupportedExc "Unsupported Extent Definition")

/-- `Regraph.get_extrude_end_plane` (regraph.py lines 710-715). -/
def get_extrude_end_plane (e : ExtrudeFeature) : Except Err GPlane :=
  match get_extrude_start_plane e with
  | .error er => .error er
  | .ok plane =>
    match get_extrude_distance e with
    | .error er => .error er
    | .ok extrude_distance =>
      .ok { plane with
        origin := offset_point_by_distance plane.origin plane.normal extrude_distance }

/-- `Regraph.get_coplanar_face` (regraph.py lines 753-761): the first planar
face of the body coplanar to the given plane. -/
def get_coplanar_face (geo : Geometry) (plane : GPlane) (body : Body) : Option Face :=
  ((body.faces.map (·.face)).find? (fun face =>
    match face.geometry with
    | .planeSurf p => geo.isCoPlanarTo plane p
    | .otherSurf _ => false))

/-- `Regraph.get_extrude_end_face` (regraph.py lines 341-363).  When the
candidate collection is non-empty, the loop breaks on the first candidate
on the same body but always assigns `end_faces[0]`; when no candidate is on
the body, the Python local `end_face` stays unbound and the `return`
raises (modelled as a `nameError`).  With no candidates, a coplanar face is
searched on the body. -/
def get_extrude_end_face (geo : Geometry) (e : ExtrudeFeature)
    (start_end_flipped : Bool) (body : Body) (m : Nat) :
    Except Err (Option Face) :=
  let end_faces := if start_end_flipped then e.startFacesAt m else e.endFacesAt m
  if end_faces.length > 0 then
    match end_faces.find? (fun ef => ef.bodyRev = body.revisionId) with
    | some _ => .ok end_faces.head?
    | none => .error (.nameError "end_face referenced before assignment")
  else
    match
      (if start_end_flipped then get_extrude_start_plane e
       else get_extrude_end_plane e) with
    | .error er => .error er
    | .ok end_plane => .ok (get_coplanar_face geo end_plane body)

-- -------------------------------------------------------------------------
-- Sequence building (regraph.py 238-281)
-- -------------------------------------------------------------------------

/-- Resolve `face.body`: the body of the component, at the current marker,
whose revision id is the face's. -/
def faceBody (d : Design) (m : Nat) (f : Face) : Option Body :=
  (d.bodiesAt m).find? (fun b => b.revisionId == f.bodyRev)

/-- `Regraph.add_extrude_faces_to_sequence` (regraph.py lines 258-281):
determines the start face (unless given), its uuid, the end face and its
uuid, and appends one `{start_face, end_face, operation}` record to the
sequence; returns the start face's body. -/
def add_extrude_faces_to_sequence (geo : Geometry) (d : Design) (st : RState)
    (e : ExtrudeFeature) (start_face? : Option Face) (start_end_flipped? : Option Bool) :
    Except Err (Body × RState) :=
  let chosen : Option Face × Bool × RState :=
    match start_face?, start_end_flipped? with
    | some sf, some fl => (some sf, fl, st)
    | _, _ =>
      let (sf, fl, m) := get_extrude_start_face e st.marker d.timeline.length
      (sf, fl, { st with marker := m })
  let (start_face?, start_end_flipped, st) := chosen
  match start_face? with
  | none => .error (.assertionError "start_face is not None")
  | some start_face =>
    match name_get_uuid st.namer start_face.token with
    | none => .error (.assertionError "start_face_uuid is not None")
    | some start_face_uuid =>
      match faceBody d st.marker start_face with
      | none => .error (.exc "face.body could not be resolved")
      | some body =>
        match get_extrude_end_face geo e start_end_flipped body st.marker with
        | .error er => .error er
        | .ok none => .error (.assertionError "end_face is not None")
        | .ok (some end_face) =>
          match name_get_uuid st.namer end_face.token with
          | none => .error (.assertionError "end_face_uuid is not None")
          | some end_face_uuid =>
            let operation := serialize_feature_operation e.operation
            let entry : SeqEntry :=
              { start_face := start_face_uuid
                end_face := end_face_uuid
                operation := operation }
            .ok (body, { st with sequence := st.sequence ++ [entry] })

/-- The loop of `add_extrude_to_sequence` over the larger face collection
(regraph.py lines 249-251), collecting one body per face. -/
def add_faces_seq_loop (geo : Geometry) (d : Design) (e : ExtrudeFeature)
    (start_end_flipped : Bool) : RState → List Face → Except Err (List Body × RState)
  | st, [] => .ok ([], st)
  | st, sf :: rest =>
    match add_extrude_faces_to_sequence geo d st e (some sf) (some start_end_flipped) with
    | .error er => .error er
    | .ok (body, st1) =>
      match add_faces_seq_loop geo d e start_end_flipped st1 rest with
      | .error er => .error er
      | .ok (bodies, st2) => .ok (body :: bodies, st2)

/-- `Regraph.add_extrude_to_sequence` (regraph.py lines 238-256): with more
than one start or end face, iterate over the larger collection (flipping
start/end when the end collection is larger); otherwise a single record. -/
def add_extrude_to_sequence (geo : Geometry) (d : Design) (st : RState)
    (e : ExtrudeFeature) : Except Err (List Body × RState) :=
  if (e.startFacesAt st.marker).length > 1 ∨ (e.endFacesAt st.marker).length > 1 then
    let flip := (e.endFacesAt st.marker).length > (e.startFacesAt st.marker).length
    let start_faces := if flip then e.endFacesAt st.marker else e.startFacesAt st.marker
    add_faces_seq_loop geo d e flip st start_faces
  else
    match add_extrude_faces_to_sequence geo d st e none none with
    | .error er => .error er
    | .ok (body, st1) => .ok ([body], st1)

-- -------------------------------------------------------------------------
-- GRAPH CONSTRUCTION (regraph.py 537-688)
-- -------------------------------------------------------------------------

/-- `Regraph.get_common_face_data` (regraph.py lines 603-607). -/
def get_common_face_data (face_uuid : Nat) : NodeData :=
  { id := face_uuid, operation_label := none, last_operation_label := none, area := none }

/-- `Regraph.get_face_data_per_extrude` (regraph.py lines 609-634); the
evaluator-derived fields (surface type, normals, curvature) are opaque
backend outputs and are omitted. -/
def get_face_data_per_extrude (face : Face) (face_uuid : Nat) (face_metadata : FaceMeta) :
    NodeData :=
  { get_common_face_data face_uuid with
    area := some face.area
    operation_label := some face_metadata.operation_label
    last_operation_label := some face_metadata.last_operation_label }

/-- `Regraph.get_face_data_per_face` (regraph.py lines 636-642); the
parametric sample features are opaque backend outputs and are omitted. -/
def get_face_data_per_face (face_uuid : Nat) : NodeData :=
  get_common_face_data face_uuid

/-- `Regraph.get_face_data` (regraph.py lines 593-601): asserts the face has
an identity and dispatches on the mode; the `PerExtrude` branch reads the
face cache (`KeyError` when absent). -/
def get_face_data (mode : String) (st : RState) (face : Face) : Except Err NodeData :=
  match name_get_uuid st.namer face.token with
  | none => .error (.assertionError "face_uuid is not None")
  | some face_uuid =>
    if mode = "PerExtrude" then
      match st.face_cache face_uuid with
      | none => .error (.keyError "face_cache[face_uuid]")
      | some face_metadata => .ok (get_face_data_per_extrude face face_uuid face_metadata)
    else if mode = "PerFace" then .ok (get_face_data_per_face face_uuid)
    else .error (.exc "unknown mode")

/-- `Regraph.get_common_edge_data` (regraph.py lines 654-660). -/
def get_common_edge_data (edge_uuid : Nat) (edge_metadata : EdgeMeta) : LinkData :=
  { id := edge_uuid
    source := edge_metadata.source
    target := edge_metadata.target
    convexity := none
    perpendicular := none }

/-- `Regraph.get_edge_data_per_extrude` (regraph.py lines 662-681): copies
the cached convexity (`KeyError` when that key was never written) and the
perpendicularity of the two adjacent faces; evaluator-derived fields
(curve type, length, direction, curvature) are omitted. -/
def get_edge_data_per_extrude (geo : Geometry) (edge : Edge) (edge_uuid : Nat)
    (edge_metadata : EdgeMeta) : Except Err LinkData :=
  match edge_metadata.convexity with
  | none => .error (.keyError "edge_metadata[convexity]")
  | some convexity =>
    .ok { get_common_edge_data edge_uuid edge_metadata with
      convexity := some convexity
      perpendicular :=
        some (geo.perpendicular (edge.faces.getD 0 default) (edge.faces.getD 1 default)) }

/-- `Regraph.get_edge_data` (regraph.py lines 644-652). -/
def get_edge_data (geo : Geometry) (mode : String) (st : RState) (edge : Edge) :
    Except Err LinkData :=
  match name_get_uuid st.namer edge.token with
  | none => .error (.assertionError "edge_uuid is not None")
  | some edge_uuid =>
    match st.edge_cache edge_uuid with
    | none => .error (.keyError "edge_cache[edge_uuid]")
    | some edge_metadata =>
      if mode = "PerExtrude" then
        get_edge_data_per_extrude geo edge edge_uuid edge_metadata
      else if mode = "PerFace" then .ok (get_common_edge_data edge_uuid edge_metadata)
      else .error (.exc "unknown mode")

/-- The node-collection loop of the graph builders. -/
def collectNodes (mode : String) (st : RState) : List Face → Except Err (List NodeData)
  | [] => .ok []
  | f :: rest =>
    match get_face_data mode st f with
    | .error er => .error er
    | .ok nd =>
      match collectNodes mode st rest with
      | .error er => .error er
      | .ok nds => .ok (nd :: nds)

/-- The link-collection loop of the graph builders. -/
def collectLinks (geo : Geometry) (mode : String) (st : RState) :
    List Edge → Except Err (List LinkData)
  | [] => .ok []
  | e :: rest =>
    match get_edge_data geo mode st e with
    | .error er => .error er
    | .ok ld =>
      match collectLinks geo mode st rest with
      | .error er => .error er
      | .ok lds => .ok (ld :: lds)

/-- One body's contribution to a graph: append its faces as nodes and its
edges as links (the loop bodies of `get_graph` / `get_graph_delta`). -/
def graphBody (geo : Geometry) (mode : String) (st : RState) (g : Graph) (b : Body) :
    Except Err Graph :=
  match collectNodes mode st (b.faces.map (·.face)) with
  | .error er => .error er
  | .ok nodes =>
    match collectLinks geo mode st b.edges with
    | .error er => .error er
    | .ok links => .ok { g with nodes := g.nodes ++ nodes, links := g.links ++ links }

/-- The body loop of `get_graph`. -/
def graphBodies (geo : Geometry) (mode : String) (st : RState) :
    Graph → List Body → Except Err Graph
  | g, [] => .ok g
  | g, b :: rest =>
    match graphBody geo mode st g b with
    | .error er => .error er
    | .ok g1 => graphBodies geo mode st g1 rest

/-- `Regraph.get_graph` (regraph.py lines 547-559): nodes are all faces and
links all edges of the target component's bodies at the current marker. -/
def get_graph (geo : Geometry) (mode : String) (st : RState) (bodies : List Body) :
    Except Err Graph :=
  graphBodies geo mode st get_empty_graph bodies

/-- `Regraph.get_graph_delta` (regraph.py lines 561-575): start from a deep
copy of the previous graph (or an empty one) and append one body's faces
and edges. -/
def get_graph_delta (geo : Geometry) (mode : String) (st : RState)
    (prev_graph : Option Graph) (body : Body) : Except Err Graph :=
  let g := match prev_graph with | none => get_empty_graph | some pg => pg
  graphBody geo mode st g body

-- -------------------------------------------------------------------------
-- GENERATE (regraph.py 71-161)
-- -------------------------------------------------------------------------

/-- The per-body delta loop of `generate_from_extrude` (regraph.py lines
126-133): for each body, build a delta graph on top of a deep copy of the
last appended graph and append it with a `"Success"` status. -/
def deltaLoop (geo : Geometry) (mode : String) : RState → List Body → Except Err RState
  | st, [] => .ok st
  | st, body :: rest =>
    let prev_graph := st.data.graphs.getLast?
    match get_graph_delta geo mode st prev_graph body with
    | .error er => .error er
    | .ok graph =>
      deltaLoop geo mode
        { st with data := { st.data with
            graphs := st.data.graphs ++ [graph]
            status := st.data.status ++ ["Success"] } } rest

/-- `Regraph.generate_from_extrude` (regraph.py lines 110-138).  In
`PerFace` mode the extrude is first added to the sequence; extruding
multiple faces into one body (duplicate revision ids) raises
`UnsupportedException("Multiple face extrude to single body")` before any
graph of this extrude is appended. -/
def generate_from_extrude (geo : Geometry) (mode : String) (d : Design)
    (st : RState) (e : ExtrudeFeature) : Except Err RState :=
  if mode = "PerFace" then
    match add_extrude_to_sequence geo d st e with
    | .error er => .error er
    | .ok (bodies, st) =>
      if bodies.length = 1 then
        match get_graph geo mode st (d.bodiesAt st.marker) with
        | .error er => .error er
        | .ok graph =>
          .ok { st with
            data := { st.data with
              graphs := st.data.graphs ++ [graph]
              status := st.data.status ++ ["Success"] }
            current_extrude_index := st.current_extrude_index + 1 }
      else
        let body_ids := bodies.map (·.revisionId)
        -- `len(body_ids) != len(set(body_ids))`: a duplicate revision id exists
        if ¬ body_ids.Nodup then
          .error (.unsupportedExc "Multiple face extrude to single body")
        else
          match deltaLoop geo mode st bodies with
          | .error er => .error er
          | .ok st =>
            .ok { st with current_extrude_index := st.current_extrude_index + 1 }
  else
    match get_graph geo mode st (d.bodiesAt st.marker) with
    | .error er => .error er
    | .ok graph =>
      .ok { st with
        data := { st.data with
          graphs := st.data.graphs ++ [graph]
          status := st.data.status ++ ["Success"] }
        current_extrude_index := st.current_extrude_index + 1 }

/-- `Regraph.generate_last` (regraph.py lines 140-154): in `PerFace` mode,
after at least one valid extrude, append the recorded sequence together
with the component bounding box. -/
def generate_last (geo : Geometry) (mode : String) (st : RState) : RState :=
  if mode = "PerFace" then
    if st.current_extrude_index > 0 then
      let seq_data : SeqData :=
        { sequence := st.sequence
          bounding_box_min := geo.boundingBoxMin
          bounding_box_max := geo.boundingBoxMax }
      { st with data := { st.data with sequences := st.data.sequences ++ [seq_data] } }
    else st
  else st

/-- Python `enumerate` over the timeline: each entry paired with its
`timeline_object.index`. -/
def enumTL : List TimelineEntity → Nat → List (Nat × TimelineEntity)
  | [], _ => []
  | x :: xs, k => (k, x) :: enumTL xs (k + 1)

/-- The export loop of `Regraph.generate` (regraph.py lines 90-103): move
the marker past each extrude, stop with a skip reason when unsupported
(restoring the marker to the last good position), otherwise refresh the
caches and export; exceptions propagate (third component). -/
def genLoop (geo : Geometry) (mode : String) (d : Design) :
    List (Nat × TimelineEntity) → RState → Nat →
    RState × Nat × Option String × Option Err
  | [], st, prev => (st, prev, none, none)
  | (_, .otherEnt) :: rest, st, prev => genLoop geo mode d rest st prev
  | (idx, .extrudeEnt e) :: rest, st, prev =>
    let st := { st with marker := idx + 1 }
    match is_extrude_supported mode e st.marker with
    | (false, reason) => ({ st with marker := prev }, prev, reason, none)
    | (true, _) =>
      match add_extrude_to_cache st e with
      | .error er => (st, prev, none, some er)
      | .ok st =>
        match add_edges_to_cache geo mode st (d.bodiesAt st.marker) with
        | .error er => (st, prev, none, some er)
        | .ok st =>
          match generate_from_extrude geo mode d st e with
          | .error er => (st, prev, none, some er)
          | .ok st => genLoop geo mode d rest st st.marker

/-- The pre-pass of `Regraph.generate` (regraph.py lines 78-81): populate
the face cache from every extrude of the timeline (marker not moved). -/
def prePass : RState → List TimelineEntity → Except Err RState
  | st, [] => .ok st
  | st, .extrudeEnt e :: rest =>
    match add_extrude_to_cache st e with
    | .error er => .error er
    | .ok st1 => prePass st1 rest
  | st, .otherEnt :: rest => prePass st rest

/-- The uuid check of `Regraph.generate` (regraph.py lines 82-86): every
face of every body must have an identity after the pre-pass. -/
def allFacesNamed (st : RState) (bodies : List Body) : Bool :=
  bodies.all (fun b => b.faces.all (fun fe => (name_get_uuid st.namer fe.face.token).isSome))

/-- `Regraph.generate` (regraph.py lines 71-108).  Returns the output data
together with the exception, if any, that escaped (Python leaves
`self.data` populated up to the failure and propagates the exception). -/
def generate (geo : Geometry) (mode : String) (d : Design) :
    RegraphData × Option Err :=
  let st := initState d
  if (d.bodiesAt st.marker).length = 0 then
    (st.data, some (.assertionError "bRepBodies.count > 0"))
  else
    match prePass st d.timeline with
    | .error er => (st.data, some er)
    | .ok st =>
      if ¬ allFacesNamed st (d.bodiesAt st.marker) then
        (st.data, some (.assertionError "face_uuid is not None"))
      else
        match genLoop geo mode d (enumTL d.timeline 0) st 0 with
        | (st1, _, _, some er) => (st1.data, some er)
        | (st1, _, some reason, none) =>
          ({ st1.data with status := st1.data.status ++ [reason] }, none)
        | (st1, _, none, none) => ((generate_last geo mode st1).data, none)

/-- The message text of an error. -/
def errMessage : Err → String
  | .assertionError m => m
  | .keyError m => m
  | .unsupportedExc m => m
  | .nameError m => m
  | .exc m => m

/-- Modelled from the spec: the batch driver that invokes `generate` is not
among the given sources (only `regraph.py` is); per §4.3/§7 of the spec any
assertion failure during a generation run is caught there, the design is
marked unsupported in the recorded status, and the run terminates gracefully
with the data produced up to the prior successfully-processed step. -/
def run_generation (geo : Geometry) (mode : String) (d : Design) : RegraphData :=
  match generate geo mode d with
  | (data, none) => data
  | (data, some er) =>
    { data with status := data.status ++ ["Unsupported: " ++ errMessage er] }

-- -------------------------------------------------------------------------
-- RegraphTester (regraph.py 764-949)
-- -------------------------------------------------------------------------

/-- The node identities of a graph. -/
def nodeIds (g : Graph) : List Nat := g.nodes.map (·.id)

/-- `RegraphTester.test_per_extrude_graph` (regraph.py lines 796-815) as a
boolean check: at least 3 nodes and 2 links, unique node ids, and every
link's source and target id among the node ids. -/
def test_per_extrude_graph (g : Graph) : Bool :=
  decide (3 ≤ g.nodes.length) &&
  decide (2 ≤ g.links.length) &&
  decide ((nodeIds g).Nodup) &&
  g.links.all (fun l =>
    (match l.source with
     | some s => decide (s ∈ nodeIds g)
     | none => false) &&
    (match l.target with
     | some t => decide (t ∈ nodeIds g)
     | none => false))

/-- A component as observed through the missing `geometry` helper module:
body/face/edge counts and the bounding box.  `bboxFinite` records the
outcome of the `math.isinf` checks on the bounding coordinates (an exact
rational cannot encode the IEEE infinities directly). -/
structure Component where
  bodyCount : Nat
  faceCount : Nat
  edgeCount : Nat
  bboxMin : Vec3
  bboxMax : Vec3
  bboxFinite : Bool
deriving DecidableEq, Repr

/-- `unittest.assertAlmostEqual(a, b, places=1)`: `round(a-b, 1) == 0`.
(Python rounds floats half-to-even; on exact rationals we use Mathlib's
`round`, which differs only on exact .05 boundaries.) -/
def assertAlmostEqual1 (a b : ℚ) : Bool :=
  round ((a - b) * 10) == (0 : ℤ)

/-- `RegraphTester.test_reconstruction` (regraph.py lines 872-949): equal
body/face/edge counts, bounding boxes equal to one decimal place, and no
infinite bounding coordinate on the reconstruction. -/
def test_reconstruction (gt rc : Component) : Bool :=
  (gt.bodyCount == rc.bodyCount) &&
  (gt.faceCount == rc.faceCount) &&
  (gt.edgeCount == rc.edgeCount) &&
  assertAlmostEqual1 rc.bboxMax.x gt.bboxMax.x &&
  assertAlmostEqual1 rc.bboxMax.y gt.bboxMax.y &&
  assertAlmostEqual1 rc.bboxMax.z gt.bboxMax.z &&
  assertAlmostEqual1 rc.bboxMin.x gt.bboxMin.x &&
  assertAlmostEqual1 rc.bboxMin.y gt.bboxMin.y &&
  assertAlmostEqual1 rc.bboxMin.z gt.bboxMin.z &&
  rc.bboxFinite

/-- The scratch-component bookkeeping of `RegraphReconstructor`:
whether the reconstruction component has been created, and whether
`remove()` (regraph.py lines 975-977) has deleted it. -/
structure ReconWorld where
  scratchCreated : Bool
  scratchDeleted : Bool
deriving DecidableEq, Repr

/-- `RegraphReconstructor.remove` (regraph.py lines 975-977). -/
def regraph_reconstructor_remove (w : ReconWorld) : ReconWorld :=
  { w with scratchDeleted := true }

/-- `RegraphReconstructor.reconstruct` (regraph.py lines 987-996): reads
`graph_data["sequences"][0]` (an `IndexError` when empty, before the
scratch component is even created), creates the scratch component in
`setup()`, and replays the sequence against the backend.  The replay
outcome - the reconstruction component's observables, or the backend/lookup
failure - is the abstract `replay` argument (feature creation is a backend
capability). -/
def regraph_reconstructor_reconstruct (replay : Except String Component)
    (graph_data : RegraphData) : Except String Component × ReconWorld :=
  match graph_data.sequences.head? with
  | none => (.error "IndexError: sequences[0]", ⟨false, false⟩)
  | some _ =>
    match replay with
    | .error er => (.error er, ⟨true, false⟩)
    | .ok rc => (.ok rc, ⟨true, false⟩)

/-- `RegraphTester.reconstruct` (regraph.py lines 786-794): replay, compare
against the ground truth, then `remove()` the scratch component.  There is
no `try/finally` in the source: any replay error or comparison failure
propagates before `remove()` runs. -/
def regraph_tester_reconstruct (replay : Except String Component)
    (graph_data : RegraphData) (gt : Component) : Except String Unit × ReconWorld :=
  let (res, w) := regraph_reconstructor_reconstruct replay graph_data
  match res with
  | .error er => (.error er, w)
  | .ok rc =>
    if test_reconstruction gt rc then (.ok (), regraph_reconstructor_remove w)
    else (.error "AssertionError: test_reconstruction", w)

-- -------------------------------------------------------------------------
-- Cumulative-snapshot sequence protocol (spec §4.4, paired implementation)
-- -------------------------------------------------------------------------

/-- Modelled from the spec: one record of the cumulative-snapshot (PerFace)
sequence protocol (§3, §4.4) - the implementation is the paired sibling of
`regraph.py`, not among the given sources (only the vestigial
`sequence_cache` of `Regraph.__init__` remains).  A record names the single
"action" face identity together with the cumulative face/edge identity sets
known at that point. -/
structure CumulativeEntry where
  action : Nat
  faces : List Nat
  edges : List Nat
deriving DecidableEq, Repr

/-- One extrude step as consumed by the cumulative-snapshot protocol: the
determined start/end face pair and the face/edge identities newly observed
at this step. -/
structure CumStep where
  startFaceId : Nat
  endFaceId : Nat
  newFaces : List Nat
  newEdges : List Nat
deriving DecidableEq, Repr

/-- Modelled from the spec (§4.4, cumulative-snapshot protocol): for each
extrude, after the start/end face pair is determined, append TWO records -
one for the action at the start face and one for the action at the end
face - each carrying the accumulated identity sets up to and including this
step. -/
def add_extrude_to_sequence_cumulative (seq : List CumulativeEntry)
    (facesSoFar edgesSoFar : List Nat) (step : CumStep) :
    List CumulativeEntry × List Nat × List Nat :=
  let faces := facesSoFar ++ step.newFaces
  let edges := edgesSoFar ++ step.newEdges
  (seq ++ [{ action := step.startFaceId, faces := faces, edges := edges },
           { action := step.endFaceId, faces := faces, edges := edges }],
   faces, edges)

/-- The cumulative-snapshot generation loop over the processed extrudes. -/
def cumulative_sequence_aux :
    List CumStep → List CumulativeEntry → List Nat → List Nat → List CumulativeEntry
  | [], seq, _, _ => seq
  | s :: rest, seq, fs, es =>
    match add_extrude_to_sequence_cumulative seq fs es s with
    | (seq1, fs1, es1) => cumulative_sequence_aux rest seq1 fs1 es1

/-- Modelled from the spec: the construction sequence produced by the
cumulative-snapshot protocol for a list of processed extrudes. -/
def cumulative_sequence (steps : List CumStep) : List CumulativeEntry :=
  cumulative_sequence_aux steps [] [] []

-- -------------------------------------------------------------------------
-- Derived notions used by the stated properties
-- -------------------------------------------------------------------------

/-- The faces an extrude reports at a marker position, in the order
`add_extrude_to_cache` caches them: start, end, then side faces. -/
def reportedFaces (e : ExtrudeFeature) (m : Nat) : List Face :=
  e.startFacesAt m ++ e.endFacesAt m ++ e.sideFacesAt m

/-- All faces of a list of bodies, in graph-builder order. -/
def facesOfBodies (bodies : List Body) : List Face :=
  bodies.flatMap (fun b => b.faces.map (·.face))

/-- All `body.edges` of a list of bodies, in graph-builder order. -/
def edgesOfBodies (bodies : List Body) : List Edge :=
  bodies.flatMap (·.edges)

/-- The identity a face resolves to in a state (0 when unnamed; only used
where the face is known to be named). -/
def uidOf (st : RState) (f : Face) : Nat :=
  (lookupTok st.namer.table f.token).getD 0

/-- A face token is named and its identity has face-cache metadata. -/
def cachedFace (st : RState) (t : Nat) : Prop :=
  ∃ u, lookupTok st.namer.table t = some u ∧ (st.face_cache u).isSome = true

/-- Well-formedness of a namer: assigned identities are below the fresh
counter, and table entries have pairwise distinct tokens and identities. -/
def NamerWF (n : Namer) : Prop :=
  (∀ p ∈ n.table, p.2 < n.next) ∧
  n.table.Pairwise (fun a b => a.1 ≠ b.1 ∧ a.2 ≠ b.2)

/-- `n2` preserves every assignment of `n`. -/
def NamerExt (n n2 : Namer) : Prop :=
  ∀ t u, lookupTok n.table t = some u → lookupTok n2.table t = some u

/-- The edge-cache entry the scan writes for an edge, expressed against the
pre-scan state (the adjacent faces are assumed already named there). -/
def mkScanEntry (geo : Geometry) (mode : String) (concave_edge_cache : List Nat)
    (st0 : RState) (e : Edge) : EdgeMeta :=
  { temp_id := e.tempId
    source := name_get_uuid st0.namer (e.faces.getD 0 default).token
    target := name_get_uuid st0.namer (e.faces.getD 1 default).token
    convexity :=
      if mode = "PerExtrude" then
        some (get_edge_convexity geo e (decide (e.tempId ∈ concave_edge_cache)))
      else none }

/-- Backend well-formedness at one marker position: distinct live faces
carry distinct naming tokens. -/
def tokensDistinctAt (d : Design) (m : Nat) : Prop :=
  (facesAt d m).Pairwise (fun f g => f.token ≠ g.token)

/-- Backend well-formedness: within one marker snapshot, the scan meets
every edge as one coherent value per token. -/
def scanCoherentAt (d : Design) (m : Nat) : Prop :=
  ∀ e1 ∈ scanAt d m, ∀ e2 ∈ scanAt d m, e1.token = e2.token → e1 = e2

/-- Backend well-formedness: every `body.edges` edge is met by the
face-incidence scan, and its adjacent faces are live faces. -/
def edgesClosedAt (d : Design) (m : Nat) : Prop :=
  ∀ e ∈ bodyEdgesAt d m, e ∈ scanAt d m ∧ ∀ f ∈ e.faces, f ∈ facesAt d m

/-- Backend well-formedness: the adjacent faces of every scanned edge are
live faces of the component. -/
def scanFacesLiveAt (d : Design) (m : Nat) : Prop :=
  ∀ e ∈ scanAt d m, ∀ f ∈ e.faces, f ∈ facesAt d m

/-- Backend well-formedness: after at least one extrude the component is
non-empty and every body is a genuine extruded solid (at least 3 faces and
2 edges - the minimum is an extruded circle). -/
def solidBodiesAt (d : Design) (m : Nat) : Prop :=
  d.bodiesAt m ≠ [] ∧ ∀ b ∈ d.bodiesAt m, 3 ≤ b.faces.length ∧ 2 ≤ b.edges.length

/-- Backend well-formedness bundle over all generation markers. -/
def designWF (d : Design) : Prop :=
  ∀ m, 1 ≤ m → m ≤ d.timeline.length →
    tokensDistinctAt d m ∧ scanCoherentAt d m ∧ edgesClosedAt d m ∧
    scanFacesLiveAt d m ∧ solidBodiesAt d m

/-- Backend provenance: every face live just after the extrude at timeline
index `idx` was reported (same token) by some extrude at index `≤ idx`, as
read at that extrude's export marker. -/
def provenanceAt (d : Design) (idx : Nat) : Prop :=
  ∀ f ∈ facesAt d (idx + 1), ∃ j ∈ List.range (idx + 1), ∃ e,
    d.timeline[j]? = some (.extrudeEnt e) ∧
    ∃ f2 ∈ reportedFaces e (j + 1), f2.token = f.token

/-- Backend provenance bundle over the whole timeline. -/
def designProvenance (d : Design) : Prop :=
  ∀ idx e, d.timeline[idx]? = some (.extrudeEnt e) → provenanceAt d idx

/-- All graphs of an output data structure pass the per-extrude test. -/
def GraphsOK (data : RegraphData) : Prop :=
  ∀ g ∈ data.graphs, test_per_extrude_graph g = true

/-- The pre-phase of `generate` succeeds: the pre-pass caches every extrude
without error and afterwards every face of the component has an identity
(the assertions of regraph.py lines 77-86 hold). -/
def prePassNamedOk (d : Design) : Bool :=
  match prePass (initState d) d.timeline with
  | .ok stP => allFacesNamed stP (d.bodiesAt d.timeline.length)
  | .error _ => false

/-- The edge scan has written a correct, current entry for an edge: the
edge's token resolves to an identity whose edge-cache entry is the scan
entry computed against the pre-scan state `stA`. -/
def goodEdgeEntry (geo : Geometry) (mode : String) (concave : List Nat)
    (stA st : RState) (e : Edge) : Prop :=
  ∃ u, lookupTok st.namer.table e.token = some u ∧
    st.edge_cache u = some (mkScanEntry geo mode concave stA e)

/-- The export-loop invariant before processing timeline index `k`: the
namer is well formed, every graph appended so far passes the per-extrude
validity test, and every face reported (at its export marker) by an
already processed extrude is named. -/
def LoopInv (d : Design) (st : RState) (k : Nat) : Prop :=
  NamerWF st.namer ∧ GraphsOK st.data ∧
  ∀ j e, j < k → d.timeline[j]? = some (.extrudeEnt e) →
    ∀ f ∈ reportedFaces e (j + 1), (lookupTok st.namer.table f.token).isSome = true

-- -------------------------------------------------------------------------
-- Concrete designs used as witnesses and counterexamples
-- -------------------------------------------------------------------------

/-- A face of the witness box (token, temp id, and unit area). -/
def bFace (i : Nat) : Face := ⟨i, i, 1, 7, .otherSurf "plane"⟩

/-- An edge of the witness box between two box faces. -/
def bEdge (t a b : Nat) : Edge := ⟨t, t, [bFace a, bFace b]⟩

/-- The 12 edges of the witness box (face 0 bottom, 1 top, 2-5 sides). -/
def boxEdges : List Edge :=
  [bEdge 10 0 2, bEdge 11 0 3, bEdge 12 0 4, bEdge 13 0 5,
   bEdge 14 1 2, bEdge 15 1 3, bEdge 16 1 4, bEdge 17 1 5,
   bEdge 18 2 3, bEdge 19 3 4, bEdge 20 4 5, bEdge 21 5 2]

/-- The 6 faces of the witness box with their incident edges. -/
def boxFaceEntries : List FaceEntry :=
  [⟨bFace 0, [bEdge 10 0 2, bEdge 11 0 3, bEdge 12 0 4, bEdge 13 0 5]⟩,
   ⟨bFace 1, [bEdge 14 1 2, bEdge 15 1 3, bEdge 16 1 4, bEdge 17 1 5]⟩,
   ⟨bFace 2, [bEdge 10 0 2, bEdge 14 1 2, bEdge 18 2 3, bEdge 21 5 2]⟩,
   ⟨bFace 3, [bEdge 11 0 3, bEdge 15 1 3, bEdge 18 2 3, bEdge 19 3 4]⟩,
   ⟨bFace 4, [bEdge 12 0 4, bEdge 16 1 4, bEdge 19 3 4, bEdge 20 4 5]⟩,
   ⟨bFace 5, [bEdge 13 0 5, bEdge 17 1 5, bEdge 20 4 5, bEdge 21 5 2]⟩]

/-- The witness box body (revision id 7). -/
def boxBody : Body := ⟨7, boxFaceEntries, boxEdges, []⟩

/-- A single new-body extrude producing the witness box: bottom face as
start, top as end, the four sides as side faces. -/
def boxExtrude : ExtrudeFeature :=
  { operation := .newBodyOp
    startFacesAt := fun _ => [bFace 0]
    endFacesAt := fun _ => [bFace 1]
    sideFacesAt := fun _ => [bFace 2, bFace 3, bFace 4, bFace 5]
    extentType := .oneSide
    extentOne := some (.distanceExtent 1)
    extentTwo := none
    taperAngleOne := some (.numValue 0)
    taperAngleTwo := none
    startExtent := .profilePlaneStart
    profileRef := .singleProfile ⟨0, 0, 0⟩ ⟨0, 0, 1⟩ }

/-- A one-extrude design building the witness box. -/
def boxDesign : Design :=
  ⟨[.extrudeEnt boxExtrude], fun m => if m = 0 then [] else [boxBody]⟩

/-- A concrete backend geometry for witnesses. -/
def geoW : Geometry :=
  ⟨fun _ _ => false, fun _ _ => true, fun _ _ => false, ⟨0, 0, 0⟩, ⟨1, 1, 1⟩⟩

/-- The box extrude with a non-zero taper angle on a NON-distance extent
definition (`extentOne` of a to-entity kind): `is_extrude_tapered` does not
fire for it. -/
def taperedOtherExtrude : ExtrudeFeature :=
  { boxExtrude with
    extentOne := some (.otherExtent "adsk::fusion::ToEntityExtentDefinition")
    taperAngleOne := some (.numValue 1) }

/-- The box design whose only extrude has a non-zero taper angle but a
non-distance extent definition. -/
def taperedOtherDesign : Design :=
  ⟨[.extrudeEnt taperedOtherExtrude], boxDesign.bodiesAt⟩

/-- The box extrude with a non-zero taper angle on its distance extent. -/
def taperedDistanceExtrude : ExtrudeFeature :=
  { boxExtrude with taperAngleOne := some (.numValue 1) }

/-- The box design whose only extrude is a genuinely tapered distance
extrude. -/
def taperedDistanceDesign : Design :=
  ⟨[.extrudeEnt taperedDistanceExtrude], boxDesign.bodiesAt⟩

/-- The witness box with one extra pathological edge (a single adjacent
face) in the bottom face's incidence list. -/
def badEdgeBody : Body :=
  ⟨7,
   [⟨bFace 0, [bEdge 10 0 2, bEdge 11 0 3, bEdge 12 0 4, bEdge 13 0 5,
               ⟨22, 22, [bFace 0]⟩]⟩] ++ boxFaceEntries.drop 1,
   boxEdges, []⟩

/-- The box design whose body has an edge with one adjacent face. -/
def badEdgeDesign : Design :=
  ⟨[.extrudeEnt boxExtrude], fun m => if m = 0 then [] else [badEdgeBody]⟩

/-- C4 counterexample: the start-face candidate at the current marker. -/
def c4StartFace : Face := ⟨100, 100, 1, 7, .otherSurf "plane"⟩

/-- C4 counterexample: the end-face candidate at the current marker. -/
def c4EndFace : Face := ⟨101, 101, 2, 7, .otherSurf "plane"⟩

/-- C4 counterexample: the start-face candidate observed at the end of the
timeline, with a huge area 0.011 below the end face's. -/
def c4StartFaceEnd : Face := ⟨100, 100, 20000000 - 11 / 1000, 7, .otherSurf "plane"⟩

/-- C4 counterexample: the end-face candidate observed at the end of the
timeline (area 20000000). -/
def c4EndFaceEnd : Face := ⟨101, 101, 20000000, 7, .otherSurf "plane"⟩

/-- C4 counterexample extrude: exactly one start- and one end-face
candidate; their areas at the end of the timeline differ by 0.011 (more
than the absolute tolerance 0.01) but lie within the relative tolerance
1e-9 of `math.isclose`. -/
def c4Extrude : ExtrudeFeature :=
  { boxExtrude with
    startFacesAt := fun m => if m = 0 then [c4StartFace] else [c4StartFaceEnd]
    endFacesAt := fun m => if m = 0 then [c4EndFace] else [c4EndFaceEnd]
    sideFacesAt := fun _ => [] }

/-- C4 witness extrude: areas 10 and 10.005 (the spec's synthetic tie). -/
def c4TieExtrude : ExtrudeFeature :=
  { boxExtrude with
    startFacesAt := fun _ => [⟨100, 100, 10, 7, .otherSurf "plane"⟩]
    endFacesAt := fun _ => [⟨101, 101, 10 + 5 / 1000, 7, .otherSurf "plane"⟩]
    sideFacesAt := fun _ => [] }

/-- C10 witness: an end-face candidate on body revision 30 (no match). -/
def c10Face1 : Face := ⟨200, 200, 1, 30, .otherSurf "plane"⟩

/-- C10 witness: an end-face candidate on body revision 31 (the match). -/
def c10Face2 : Face := ⟨201, 201, 1, 31, .otherSurf "plane"⟩

/-- C10 witness extrude: two end-face candidates; only the second is on the
queried body. -/
def c10Extrude : ExtrudeFeature :=
  { boxExtrude with endFacesAt := fun _ => [c10Face1, c10Face2] }

/-- C10 witness body (revision 31, matching only the second candidate). -/
def c10Body : Body := ⟨31, [], [], []⟩

/-- C9 witness: first start face (body revision 7). -/
def c9Start1 : Face := ⟨300, 300, 1, 7, .otherSurf "plane"⟩

/-- C9 witness: second start face (same body revision 7). -/
def c9Start2 : Face := ⟨301, 301, 1, 7, .otherSurf "plane"⟩

/-- C9 witness: the single end face (body revision 7). -/
def c9End : Face := ⟨302, 302, 1, 7, .otherSurf "plane"⟩

/-- C9 witness extrude: two start faces and one end face, all on the same
body. -/
def c9Extrude : ExtrudeFeature :=
  { boxExtrude with
    operation := .joinOp
    startFacesAt := fun _ => [c9Start1, c9Start2]
    endFacesAt := fun _ => [c9End]
    sideFacesAt := fun _ => [] }

/-- C9 witness design: one body of revision 7. -/
def c9Design : Design :=
  ⟨[.extrudeEnt c9Extrude], fun _ => [⟨7, [], [], []⟩]⟩

/-- C9 witness state: the three faces already named, marker at 1. -/
def c9State : RState :=
  { face_cache := fun _ => none
    edge_cache := fun _ => none
    namer := ⟨[(300, 0), (301, 1), (302, 2)], 3⟩
    sequence := []
    marker := 1
    current_extrude_index := 0
    data := ⟨[], [], []⟩ }

/-- C6 witness state: one stale cached face (uuid 50) flagged true. -/
def c6State : RState :=
  { face_cache := fun u =>
      if u = 50 then some ⟨"ExtrudeSide", true⟩ else none
    edge_cache := fun _ => none
    namer := ⟨[(40, 50)], 51⟩
    sequence := []
    marker := 1
    current_extrude_index := 0
    data := ⟨[], [], []⟩ }

/-- C5 counterexample: ground-truth component observables. -/
def c5Gt : Component := ⟨1, 6, 12, ⟨0, 0, 0⟩, ⟨1, 1, 1⟩, true⟩

/-- C5 counterexample: reconstruction observables with a differing body
count, so `test_reconstruction` fails. -/
def c5Rc : Component := ⟨2, 6, 12, ⟨0, 0, 0⟩, ⟨1, 1, 1⟩, true⟩

/-- C5 counterexample: output data with one recorded sequence, so the
replay gets past the `sequences[0]` access and the scratch component is
created. -/
def c5Data : RegraphData :=
  ⟨[], [⟨[], ⟨0, 0, 0⟩, ⟨1, 1, 1⟩⟩], []⟩

/-- C8 witness edge (two box faces). -/
def c8Edge : Edge := bEdge 10 0 2

-- -------------------------------------------------------------------------
-- Theorems
-- -------------------------------------------------------------------------

/-- C8: the edge-convexity classification returns `"Concave"` whenever the
concavity flag is set - the concavity test takes priority over the tangency
test - otherwise `"Smooth"` exactly when the edge's two adjacent faces are
tangentially connected, and `"Convex"` otherwise. -/
theorem c8_edge_convexity (geo : Geometry) (edge : Edge) (is_concave : Bool) :
    (is_concave = true → get_edge_convexity geo edge is_concave = "Concave") ∧
    (is_concave = false →
      geo.tangentiallyConnected (edge.faces.getD 0 default) (edge.faces.getD 1 default) = true →
      get_edge_convexity geo edge is_concave = "Smooth") ∧
    (is_concave = false →
      geo.tangentiallyConnected (edge.faces.getD 0 default) (edge.faces.getD 1 default) = false →
      get_edge_convexity geo edge is_concave = "Convex") := by
  refine ⟨fun h => ?_, fun h1 h2 => ?_, fun h1 h2 => ?_⟩
  · subst h; rfl
  · subst h1
    show (if (false : Bool) = true then "Concave"
          else if geo.tangentiallyConnected (edge.faces.getD 0 default)
              (edge.faces.getD 1 default) = true then "Smooth" else "Convex") = "Smooth"
    rw [h2]
    rfl
  · subst h1
    show (if (false : Bool) = true then "Concave"
          else if geo.tangentiallyConnected (edge.faces.getD 0 default)
              (edge.faces.getD 1 default) = true then "Smooth" else "Convex") = "Convex"
    rw [h2]
    rfl

/-- C8 witness: a concrete concave edge is classified `"Concave"`. -/
theorem c8_edge_convexity_witness :
    get_edge_convexity geoW c8Edge true = "Concave" :=
  (c8_edge_convexity geoW c8Edge true).1 rfl

/-- C10: when the end-face candidate collection is non-empty and some
candidate lies on the queried body (same revision id), the end-face
selection returns the collection's first element, regardless of which
candidate matched. -/
theorem c10_end_face_first (geo : Geometry) (e : ExtrudeFeature) (flip : Bool)
    (body : Body) (m : Nat)
    (hne : (if flip then e.startFacesAt m else e.endFacesAt m) ≠ [])
    (hmatch : ∃ ef ∈ (if flip then e.startFacesAt m else e.endFacesAt m),
      ef.bodyRev = body.revisionId) :
    get_extrude_end_face geo e flip body m =
      .ok (if flip then e.startFacesAt m else e.endFacesAt m).head? := by
  unfold get_extrude_end_face
  have hlen : (if flip then e.startFacesAt m else e.endFacesAt m).length > 0 :=
    List.length_pos.mpr hne
  rw [if_pos hlen]
  obtain ⟨ef, hmem, heq⟩ := hmatch
  cases hfind : (if flip then e.startFacesAt m else e.endFacesAt m).find?
      (fun ef => ef.bodyRev = body.revisionId) with
  | none =>
    exfalso
    have h2 := List.find?_eq_none.mp hfind ef hmem
    simp [heq] at h2
  | some x => rfl

/-- C10 witness: with two candidates of which only the SECOND is on the
queried body, the FIRST is still returned. -/
theorem c10_end_face_first_witness :
    get_extrude_end_face geoW c10Extrude false c10Body 1 = .ok (some c10Face1) := by
  have h := c10_end_face_first geoW c10Extrude false c10Body 1 (by decide)
    ⟨c10Face2, by decide, by decide⟩
  exact h.trans rfl

/-- The cumulative-snapshot loop adds two records per step. -/
theorem cumulative_sequence_aux_length (steps : List CumStep) :
    ∀ seq fs es, (cumulative_sequence_aux steps seq fs es).length =
      seq.length + 2 * steps.length := by
  induction steps with
  | nil => intro seq fs es; simp [cumulative_sequence_aux]
  | cons s rest ih =>
    intro seq fs es
    simp only [cumulative_sequence_aux, add_extrude_to_sequence_cumulative]
    rw [ih]
    simp
    ring

/-- C2: in the cumulative-snapshot (PerFace) sequence protocol, every
processed extrude appends exactly two records (one for the action at the
start face, one at the end face), so after every step the sequence length
is even. -/
theorem c2_cumulative_two_records_even (steps : List CumStep) :
    (cumulative_sequence steps).length = 2 * steps.length ∧
    (cumulative_sequence steps).length % 2 = 0 := by
  have h := cumulative_sequence_aux_length steps [] [] []
  simp only [cumulative_sequence, List.length_nil, Nat.zero_add] at h ⊢
  exact ⟨h, by omega⟩

/-- C5 counterexample: a validation run whose comparison fails (differing
body counts) creates the scratch component but never deletes it - the
deletion is NOT guaranteed regardless of success or failure. -/
theorem c5_no_cleanup_on_failure :
    test_reconstruction c5Gt c5Rc = false ∧
    (regraph_tester_reconstruct (.ok c5Rc) c5Data c5Gt).2.scratchCreated = true ∧
    (regraph_tester_reconstruct (.ok c5Rc) c5Data c5Gt).2.scratchDeleted = false := by
  refine ⟨by decide, by decide, by decide⟩

/-- C5 amended: the scratch reconstruction component is deleted exactly
when the replay succeeds AND the comparison with the ground truth passes;
on any failure the exception propagates before `remove()` runs. -/
theorem c5_cleanup_iff_success (replay : Except String Component)
    (graph_data : RegraphData) (gt : Component) :
    (regraph_tester_reconstruct replay graph_data gt).2.scratchDeleted = true ↔
    (∃ rc, (regraph_reconstructor_reconstruct replay graph_data).1 = .ok rc ∧
      test_reconstruction gt rc = true) := by
  unfold regraph_tester_reconstruct regraph_reconstructor_reconstruct
  cases hs : graph_data.sequences.head? with
  | none => simp
  | some s =>
    cases replay with
    | error er => simp
    | ok rc =>
      cases ht : test_reconstruction gt rc with
      | true => simp [ht, regraph_reconstructor_remove]
      | false => simp [ht]

/-- `mathIsclose` unfolded to its defining inequality. -/
theorem mathIsclose_eq_true_iff (a b : ℚ) :
    mathIsclose a b = true ↔
      |a - b| ≤ max ((1 / 1000000000) * max |a| |b|) (1 / 100) := by
  simp [mathIsclose]

/-- Evaluation of the start-face selection when both candidate collections
have exactly one element at the marker and are non-empty at the end of the
timeline. -/
theorem start_face_area_eval (e : ExtrudeFeature) (m T : Nat)
    (hs : (e.startFacesAt m).length = 1) (he : (e.endFacesAt m).length = 1)
    (hsT : 0 < (e.startFacesAt T).length) (heT : 0 < (e.endFacesAt T).length) :
    (mathIsclose ((e.startFacesAt T).headD default).area
        ((e.endFacesAt T).headD default).area = true →
      get_extrude_start_face e m T = ((e.startFacesAt m).head?, false, m)) ∧
    (mathIsclose ((e.startFacesAt T).headD default).area
        ((e.endFacesAt T).headD default).area = false →
      (((e.endFacesAt T).headD default).area < ((e.startFacesAt T).headD default).area →
        get_extrude_start_face e m T = ((e.startFacesAt m).head?, false, m)) ∧
      (¬ (((e.endFacesAt T).headD default).area < ((e.startFacesAt T).headD default).area) →
        get_extrude_start_face e m T = ((e.endFacesAt m).head?, true, m))) := by
  have hsT0 : ¬ ((e.startFacesAt T).length = 0) := by omega
  have heT0 : ¬ ((e.endFacesAt T).length = 0) := by omega
  constructor
  · intro hcl
    simp only [get_extrude_start_face, hs, he, hsT0, heT0, hsT, heT, hcl,
      startFaceDefaultPriority, if_true, if_false, eq_self_iff_true, and_self,
      not_true, not_false_iff, ite_true, ite_false, gt_iff_lt]
    simp
  · intro hcl
    constructor
    · intro hgt
      simp only [get_extrude_start_face, hs, he, hsT0, heT0, hsT, heT, hcl, hgt,
        startFaceDefaultPriority, if_true, if_false, eq_self_iff_true, and_self,
        not_true, not_false_iff, ite_true, ite_false, gt_iff_lt]
      simp
    · intro hgt
      simp only [get_extrude_start_face, hs, he, hsT0, heT0, hsT, heT, hcl, hgt,
        startFaceDefaultPriority, if_true, if_false, eq_self_iff_true, and_self,
        not_true, not_false_iff, ite_true, ite_false, gt_iff_lt]
      simp

/-- C4 counterexample: an extrude with exactly one start-face and one
end-face candidate whose end-of-timeline areas differ by 0.011 - strictly
MORE than the absolute tolerance 0.01, the end face being larger - yet the
start-face selection still skips the area-based branch (the areas lie
within `math.isclose`'s default relative tolerance 1e-9 of each other, the
areas being about 2e7) and picks the smaller start face by default
priority, contradicting the claim that the larger-area candidate is chosen
whenever the areas are not within absolute tolerance 0.01. -/
theorem c4_rel_tol_counterexample :
    (c4Extrude.startFacesAt 0).length = 1 ∧
    (c4Extrude.endFacesAt 0).length = 1 ∧
    ¬ (|((c4Extrude.startFacesAt 1).headD default).area -
        ((c4Extrude.endFacesAt 1).headD default).area| ≤ 1 / 100) ∧
    ((c4Extrude.startFacesAt 1).headD default).area <
      ((c4Extrude.endFacesAt 1).headD default).area ∧
    get_extrude_start_face c4Extrude 0 1 = (some c4StartFace, false, 0) := by
  have hA : ((c4Extrude.startFacesAt 1).headD default).area = 20000000 - 11 / 1000 := rfl
  have hB : ((c4Extrude.endFacesAt 1).headD default).area = 20000000 := rfl
  have habs : |(20000000 - 11 / 1000 : ℚ) - 20000000| = 11 / 1000 := by
    rw [show ((20000000 - 11 / 1000 : ℚ) - 20000000) = -(11 / 1000) from by ring, abs_neg]
    exact abs_of_nonneg (by norm_num)
  refine ⟨rfl, rfl, ?_, ?_, ?_⟩
  · rw [hA, hB, habs]; norm_num
  · rw [hA, hB]; norm_num
  · have hcl : mathIsclose ((c4Extrude.startFacesAt 1).headD default).area
        ((c4Extrude.endFacesAt 1).headD default).area = true := by
      rw [hA, hB, mathIsclose_eq_true_iff, habs]
      rw [abs_of_nonneg (show (0 : ℚ) ≤ 20000000 - 11 / 1000 by norm_num)]
      rw [abs_of_nonneg (show (0 : ℚ) ≤ (20000000 : ℚ) by norm_num)]
      rw [max_eq_right (show (20000000 - 11 / 1000 : ℚ) ≤ 20000000 by norm_num)]
      rw [max_eq_left (show (1 / 100 : ℚ) ≤ 1 / 1000000000 * 20000000 by norm_num)]
      norm_num
    exact ((start_face_area_eval c4Extrude 0 1 rfl rfl (by decide) (by decide)).1 hcl).trans rfl

/-- C4 amended: with exactly one start and one end candidate at the current
marker (both collections still non-empty at the end of the timeline), the
candidate whose end-of-timeline area is larger is chosen as start face;
the area-based branch is skipped - falling through to the default priority,
which prefers the single start face - exactly when Python
`math.isclose(sf_area, ef_area, abs_tol=0.01)` holds, i.e. the areas are
within 0.01 of each other absolutely OR within the default relative
tolerance 1e-9 (not merely within 0.01 absolutely). -/
theorem c4_start_face_tolerance (e : ExtrudeFeature) (m T : Nat)
    (hs : (e.startFacesAt m).length = 1) (he : (e.endFacesAt m).length = 1)
    (hsT : 0 < (e.startFacesAt T).length) (heT : 0 < (e.endFacesAt T).length) :
    (mathIsclose ((e.startFacesAt T).headD default).area
        ((e.endFacesAt T).headD default).area = true →
      get_extrude_start_face e m T = ((e.startFacesAt m).head?, false, m)) ∧
    (mathIsclose ((e.startFacesAt T).headD default).area
        ((e.endFacesAt T).headD default).area = false →
      (((e.endFacesAt T).headD default).area < ((e.startFacesAt T).headD default).area →
        get_extrude_start_face e m T = ((e.startFacesAt m).head?, false, m)) ∧
      (¬ (((e.endFacesAt T).headD default).area < ((e.startFacesAt T).headD default).area) →
        get_extrude_start_face e m T = ((e.endFacesAt m).head?, true, m))) :=
  start_face_area_eval e m T hs he hsT heT

/-- C4 witness: the spec's synthetic tie - areas 10 and 10.005 - falls
within the tolerance, so the choice falls through to the default priority
and the single start face is chosen. -/
theorem c4_start_face_tolerance_witness :
    mathIsclose ((c4TieExtrude.startFacesAt 1).headD default).area
      ((c4TieExtrude.endFacesAt 1).headD default).area = true ∧
    get_extrude_start_face c4TieExtrude 0 1 =
      ((c4TieExtrude.startFacesAt 0).head?, false, 0) := by
  have hA : ((c4TieExtrude.startFacesAt 1).headD default).area = 10 := rfl
  have hB : ((c4TieExtrude.endFacesAt 1).headD default).area = 10 + 5 / 1000 := rfl
  have hcl : mathIsclose ((c4TieExtrude.startFacesAt 1).headD default).area
      ((c4TieExtrude.endFacesAt 1).headD default).area = true := by
    rw [hA, hB, mathIsclose_eq_true_iff]
    rw [show ((10 : ℚ) - (10 + 5 / 1000)) = -(5 / 1000) from by ring, abs_neg]
    rw [abs_of_nonneg (show (0 : ℚ) ≤ 5 / 1000 by norm_num)]
    rw [abs_of_nonneg (show (0 : ℚ) ≤ 10 by norm_num)]
    rw [abs_of_nonneg (show (0 : ℚ) ≤ 10 + 5 / 1000 by norm_num)]
    rw [max_eq_right (show (10 : ℚ) ≤ 10 + 5 / 1000 by norm_num)]
    rw [max_eq_right (show ((1 : ℚ) / 1000000000 * (10 + 5 / 1000)) ≤ 1 / 100 by norm_num)]
    norm_num
  exact ⟨hcl,
    (c4_start_face_tolerance c4TieExtrude 0 1 rfl rfl (by decide) (by decide)).1 hcl⟩

/-- The per-face sequence loop returns one body per face of its input. -/
theorem add_faces_seq_loop_length (geo : Geometry) (d : Design) (e : ExtrudeFeature)
    (fl : Bool) : ∀ (l : List Face) (st : RState) (bodies : List Body) (st2 : RState),
    add_faces_seq_loop geo d e fl st l = .ok (bodies, st2) →
    bodies.length = l.length := by
  intro l
  induction l with
  | nil =>
    intro st bodies st2 h
    simp only [add_faces_seq_loop, Except.ok.injEq, Prod.mk.injEq] at h
    rw [← h.1]
    rfl
  | cons sf rest ih =>
    intro st bodies st2 h
    simp only [add_faces_seq_loop] at h
    split at h
    · exact absurd h (by simp)
    · rename_i body st1 heq1
      split at h
      · exact absurd h (by simp)
      · rename_i bodies2 st3 heq2
        simp only [Except.ok.injEq, Prod.mk.injEq] at h
        rw [← h.1]
        simp [ih st1 bodies2 st3 heq2]

/-- C9: in PerFace mode, when an extrude reports more than one start face
or more than one end face and two of the per-face bodies share the same
revision id, `generate_from_extrude` raises
`UnsupportedException("Multiple face extrude to single body")` instead of
appending graphs for that extrude. -/
theorem c9_multi_face_single_body (geo : Geometry) (d : Design) (st : RState)
    (e : ExtrudeFeature) (bodies : List Body) (st1 : RState)
    (hmulti : (e.startFacesAt st.marker).length > 1 ∨
      (e.endFacesAt st.marker).length > 1)
    (hseq : add_extrude_to_sequence geo d st e = .ok (bodies, st1))
    (hdup : ¬ (bodies.map (·.revisionId)).Nodup) :
    generate_from_extrude geo "PerFace" d st e =
      .error (.unsupportedExc "Multiple face extrude to single body") := by
  have hseq2 := hseq
  simp only [add_extrude_to_sequence] at hseq2
  rw [if_pos hmulti] at hseq2
  have hlen2 : 2 ≤ bodies.length := by
    by_cases hflip : (e.endFacesAt st.marker).length > (e.startFacesAt st.marker).length
    · rw [if_pos hflip] at hseq2
      have := add_faces_seq_loop_length geo d e _ _ _ _ _ hseq2
      omega
    · rw [if_neg hflip] at hseq2
      have := add_faces_seq_loop_length geo d e _ _ _ _ _ hseq2
      omega
  have hne1 : ¬ (bodies.length = 1) := by omega
  simp only [generate_from_extrude, hseq, hne1, hdup]
  simp

/-- C9 witness: two start faces extruding into one body (same revision id)
raise the unsupported exception. -/
theorem c9_multi_face_single_body_witness :
    ((c9Extrude.startFacesAt c9State.marker).length > 1 ∨
      (c9Extrude.endFacesAt c9State.marker).length > 1) ∧
    generate_from_extrude geoW "PerFace" c9Design c9State c9Extrude =
      .error (.unsupportedExc "Multiple face extrude to single body") :=
  ⟨Or.inl (by decide),
   c9_multi_face_single_body geoW c9Design c9State c9Extrude _ _
     (Or.inl (by decide)) rfl (by decide)⟩

/-- A token missing from the table differs from every stored token. -/
theorem lookupTok_none_ne (l : List (Nat × Nat)) (t : Nat)
    (h : lookupTok l t = none) : ∀ p ∈ l, p.1 ≠ t := by
  induction l with
  | nil => simp
  | cons p rest ih =>
    simp only [lookupTok] at h
    by_cases he : p.1 = t
    · rw [if_pos he] at h; exact absurd h (by simp)
    · rw [if_neg he] at h
      intro q hq
      rcases List.mem_cons.mp hq with hq | hq
      · rw [hq]; exact he
      · exact ih h q hq

/-- `set_uuid` makes its token resolve to the returned identity. -/
theorem name_set_uuid_lookup_self (n : Namer) (t : Nat) :
    lookupTok ((name_set_uuid n t).2).table t = some (name_set_uuid n t).1 := by
  unfold name_set_uuid
  cases h : lookupTok n.table t with
  | some u => simp [h]
  | none => simp [h, lookupTok]

/-- `set_uuid` preserves every existing assignment. -/
theorem name_set_uuid_ext (n : Namer) (t : Nat) :
    NamerExt n (name_set_uuid n t).2 := by
  intro t2 u2 h
  unfold name_set_uuid
  cases h2 : lookupTok n.table t with
  | some u => simpa [h2] using h
  | none =>
    simp only [h2, lookupTok]
    by_cases he : t = t2
    · subst he; rw [h] at h2; exact absurd h2 (by simp)
    · rw [if_neg he]; exact h

/-- `NamerExt` is reflexive. -/
theorem namerExt_refl (n : Namer) : NamerExt n n := fun _ _ h => h

/-- `NamerExt` is transitive. -/
theorem namerExt_trans {a b c : Namer} (h1 : NamerExt a b) (h2 : NamerExt b c) :
    NamerExt a c := fun t u h => h2 t u (h1 t u h)

/-- A token named in `nB` resolves identically in any extension `nC`. -/
theorem lookup_ext_iff {nB nC : Namer} (hext : NamerExt nB nC) (t : Nat)
    (h : (lookupTok nB.table t).isSome = true) (u : Nat) :
    lookupTok nB.table t = some u ↔ lookupTok nC.table t = some u := by
  constructor
  · exact hext t u
  · intro hc
    obtain ⟨u2, hu2⟩ := Option.isSome_iff_exists.mp h
    have h3 := hext t u2 hu2
    have h4 : u2 = u := Option.some.inj (h3.symm.trans hc)
    rw [hu2, h4]

/-- One face-cache pass leaves every component but the namer and face cache
unchanged. -/
theorem afc_unchanged (faces : List Face) (op loc : String) : ∀ st : RState,
    (add_extrude_faces_to_cache st faces op loc).edge_cache = st.edge_cache ∧
    (add_extrude_faces_to_cache st faces op loc).marker = st.marker ∧
    (add_extrude_faces_to_cache st faces op loc).data = st.data ∧
    (add_extrude_faces_to_cache st faces op loc).sequence = st.sequence ∧
    (add_extrude_faces_to_cache st faces op loc).current_extrude_index
      = st.current_extrude_index := by
  induction faces with
  | nil => intro st; exact ⟨rfl, rfl, rfl, rfl, rfl⟩
  | cons f rest ih =>
    intro st
    simp only [add_extrude_faces_to_cache, List.foldl_cons] at ih ⊢
    exact ih (add_extrude_faces_to_cache_step op loc st f)

/-- One face-cache pass only extends the namer. -/
theorem afc_namer_ext (faces : List Face) (op loc : String) : ∀ st : RState,
    NamerExt st.namer (add_extrude_faces_to_cache st faces op loc).namer := by
  induction faces with
  | nil => intro st; exact namerExt_refl _
  | cons f rest ih =>
    intro st
    simp only [add_extrude_faces_to_cache, List.foldl_cons] at ih ⊢
    exact namerExt_trans (name_set_uuid_ext st.namer f.token)
      (ih (add_extrude_faces_to_cache_step op loc st f))

/-- After one face-cache pass every listed face is named. -/
theorem afc_names (faces : List Face) (op loc : String) : ∀ st : RState,
    ∀ f ∈ faces,
    (lookupTok (add_extrude_faces_to_cache st faces op loc).namer.table f.token).isSome
      = true := by
  induction faces with
  | nil => simp
  | cons f0 rest ih =>
    intro st f hf
    simp only [add_extrude_faces_to_cache, List.foldl_cons] at ih ⊢
    rcases List.mem_cons.mp hf with hh | hh
    · subst hh
      have h1 := name_set_uuid_lookup_self st.namer f.token
      have h2 := afc_namer_ext rest op loc (add_extrude_faces_to_cache_step op loc st f)
        f.token (name_set_uuid st.namer f.token).1 h1
      simp only [add_extrude_faces_to_cache] at h2
      rw [h2]
      rfl
    · exact ih (add_extrude_faces_to_cache_step op loc st f0) f hh

/-- A uuid no listed face resolves to keeps its prior cache entry. -/
theorem afc_cache_miss (faces : List Face) (op loc : String) : ∀ (st : RState) (u : Nat),
    (¬ ∃ f ∈ faces,
      lookupTok (add_extrude_faces_to_cache st faces op loc).namer.table f.token
        = some u) →
    (add_extrude_faces_to_cache st faces op loc).face_cache u = st.face_cache u := by
  induction faces with
  | nil => intro st u _; rfl
  | cons f0 rest ih =>
    intro st u hno
    simp only [add_extrude_faces_to_cache, List.foldl_cons] at hno ih ⊢
    have hno_rest : ¬ ∃ f ∈ rest,
        lookupTok (add_extrude_faces_to_cache (add_extrude_faces_to_cache_step op loc st f0)
          rest op loc).namer.table f.token = some u := by
      intro hex
      obtain ⟨f, hf, hl⟩ := hex
      exact hno ⟨f, List.mem_cons_of_mem _ hf, by
        simpa [add_extrude_faces_to_cache] using hl⟩
    have hstep := ih (add_extrude_faces_to_cache_step op loc st f0) u
      (by simpa [add_extrude_faces_to_cache] using hno_rest)
    rw [hstep]
    have hself := name_set_uuid_lookup_self st.namer f0.token
    have hfinal := afc_namer_ext rest op loc (add_extrude_faces_to_cache_step op loc st f0)
      f0.token (name_set_uuid st.namer f0.token).1 hself
    have hne : (name_set_uuid st.namer f0.token).1 ≠ u := by
      intro he
      exact hno ⟨f0, List.mem_cons_self _ _, he ▸ hfinal⟩
    show (if u = (name_set_uuid st.namer f0.token).1 then _ else st.face_cache u)
      = st.face_cache u
    rw [if_neg (Ne.symm hne)]

/-- A uuid some listed face resolves to ends cached with the pass's label
and the flag `true`. -/
theorem afc_cache_hit (faces : List Face) (op loc : String) : ∀ (st : RState) (u : Nat),
    (∃ f ∈ faces,
      lookupTok (add_extrude_faces_to_cache st faces op loc).namer.table f.token
        = some u) →
    (add_extrude_faces_to_cache st faces op loc).face_cache u
      = some ⟨op ++ loc, true⟩ := by
  induction faces with
  | nil => simp
  | cons f0 rest ih =>
    intro st u hex
    simp only [add_extrude_faces_to_cache, List.foldl_cons] at hex ih ⊢
    by_cases hrest : ∃ f ∈ rest,
        lookupTok (add_extrude_faces_to_cache (add_extrude_faces_to_cache_step op loc st f0)
          rest op loc).namer.table f.token = some u
    · exact ih (add_extrude_faces_to_cache_step op loc st f0) u
        (by simpa [add_extrude_faces_to_cache] using hrest)
    · obtain ⟨f, hf, hl⟩ := hex
      rcases List.mem_cons.mp hf with hh | hh
      · subst hh
        have hself := name_set_uuid_lookup_self st.namer f.token
        have hfinal := afc_namer_ext rest op loc (add_extrude_faces_to_cache_step op loc st f)
          f.token (name_set_uuid st.namer f.token).1 hself
        have hu : (name_set_uuid st.namer f.token).1 = u := by
          have : lookupTok (add_extrude_faces_to_cache
              (add_extrude_faces_to_cache_step op loc st f) rest op loc).namer.table f.token
              = some u := by simpa [add_extrude_faces_to_cache] using hl
          exact Option.some.inj ((by
            simpa [add_extrude_faces_to_cache] using hfinal : lookupTok _ f.token
              = some (name_set_uuid st.namer f.token).1).symm.trans this)
        have hmiss := afc_cache_miss rest op loc (add_extrude_faces_to_cache_step op loc st f) u
          (by simpa [add_extrude_faces_to_cache] using hrest)
        simp only [add_extrude_faces_to_cache] at hmiss
        rw [hmiss]
        show (if u = (name_set_uuid st.namer f.token).1 then
          some ⟨op ++ loc, true⟩ else st.face_cache u) = some ⟨op ++ loc, true⟩
        rw [if_pos hu.symm]
      · exact absurd ⟨f, hh, by simpa [add_extrude_faces_to_cache] using hl⟩ hrest

/-- One face-cache pass leaves the marker unchanged. -/
theorem afc_marker (st : RState) (faces : List Face) (op loc : String) :
    (add_extrude_faces_to_cache st faces op loc).marker = st.marker :=
  (afc_unchanged faces op loc st).2.1

/-- C6: after `add_extrude_to_cache` succeeds, a cached identity carries
`last_operation_label = true` exactly when one of the faces the extrude
reports (start, end, or side, at the pre-call marker) resolves to that
identity: all older entries are reset to `false` first. -/
theorem c6_last_operation_label (st : RState) (e : ExtrudeFeature) (st1 : RState)
    (hok : add_extrude_to_cache st e = .ok st1) :
    ∀ u meta, st1.face_cache u = some meta →
      (meta.last_operation_label = true ↔
        ∃ f ∈ reportedFaces e st.marker,
          lookupTok st1.namer.table f.token = some u) := by
  simp only [add_extrude_to_cache] at hok
  cases hop : get_extrude_operation e.operation with
  | error er => rw [hop] at hok; exact absurd hok (by simp)
  | ok p =>
    obtain ⟨opFull, opShort⟩ := p
    rw [hop] at hok
    simp only [Except.ok.injEq] at hok
    subst hok
    simp only [afc_marker, reportedFaces]
    intro u meta hmeta
    -- name the intermediate states
    set stR : RState :=
      { st with
        face_cache := fun u => (st.face_cache u).map
          (fun m => { m with last_operation_label := false }) } with hstR
    set S1 := e.startFacesAt st.marker with hS1
    set S2 := e.endFacesAt st.marker with hS2
    set S3 := e.sideFacesAt st.marker with hS3
    set stA := add_extrude_faces_to_cache stR S1 opShort "Start" with hstA
    set stB := add_extrude_faces_to_cache stA S2 opShort "End" with hstB
    set stC := add_extrude_faces_to_cache stB S3 opShort "Side" with hstC
    have hBC : NamerExt stB.namer stC.namer := by
      rw [hstC]; exact afc_namer_ext S3 opShort "Side" stB
    have hAB : NamerExt stA.namer stB.namer := by
      rw [hstB]; exact afc_namer_ext S2 opShort "End" stA
    have hAC : NamerExt stA.namer stC.namer := namerExt_trans hAB hBC
    have conv2 : (∃ f ∈ S2, lookupTok stB.namer.table f.token = some u) ↔
        (∃ f ∈ S2, lookupTok stC.namer.table f.token = some u) := by
      constructor
      · rintro ⟨f, hf, hl⟩; exact ⟨f, hf, hBC _ _ hl⟩
      · rintro ⟨f, hf, hl⟩
        refine ⟨f, hf, (lookup_ext_iff hBC f.token ?_ u).mpr hl⟩
        rw [hstB]; exact afc_names S2 opShort "End" stA f hf
    have conv1 : (∃ f ∈ S1, lookupTok stA.namer.table f.token = some u) ↔
        (∃ f ∈ S1, lookupTok stC.namer.table f.token = some u) := by
      constructor
      · rintro ⟨f, hf, hl⟩; exact ⟨f, hf, hAC _ _ hl⟩
      · rintro ⟨f, hf, hl⟩
        refine ⟨f, hf, (lookup_ext_iff hAC f.token ?_ u).mpr hl⟩
        rw [hstA]; exact afc_names S1 opShort "Start" stR f hf
    by_cases h3 : ∃ f ∈ S3, lookupTok stC.namer.table f.token = some u
    · have hhit : stC.face_cache u = some ⟨opShort ++ "Side", true⟩ := by
        rw [hstC]; exact afc_cache_hit S3 opShort "Side" stB u (by rw [← hstC]; exact h3)
      rw [hmeta] at hhit
      have hm := Option.some.inj hhit
      constructor
      · intro _
        obtain ⟨f, hf, hl⟩ := h3
        exact ⟨f, by simp [List.mem_append, hf], hl⟩
      · intro _
        rw [hm]
    · have hCB : stC.face_cache u = stB.face_cache u := by
        rw [hstC]; exact afc_cache_miss S3 opShort "Side" stB u (by rw [← hstC]; exact h3)
      rw [hCB] at hmeta
      by_cases h2 : ∃ f ∈ S2, lookupTok stC.namer.table f.token = some u
      · have hhit : stB.face_cache u = some ⟨opShort ++ "End", true⟩ := by
          rw [hstB]
          exact afc_cache_hit S2 opShort "End" stA u (by rw [← hstB]; exact conv2.mpr h2)
        rw [hmeta] at hhit
        have hm := Option.some.inj hhit
        constructor
        · intro _
          obtain ⟨f, hf, hl⟩ := h2
          exact ⟨f, by simp [List.mem_append, hf], hl⟩
        · intro _
          rw [hm]
      · have hBA : stB.face_cache u = stA.face_cache u := by
          rw [hstB]
          exact afc_cache_miss S2 opShort "End" stA u (by rw [← hstB]; exact (conv2.not).mpr h2)
        rw [hBA] at hmeta
        by_cases h1 : ∃ f ∈ S1, lookupTok stC.namer.table f.token = some u
        · have hhit : stA.face_cache u = some ⟨opShort ++ "Start", true⟩ := by
            rw [hstA]
            exact afc_cache_hit S1 opShort "Start" stR u (by rw [← hstA]; exact conv1.mpr h1)
          rw [hmeta] at hhit
          have hm := Option.some.inj hhit
          constructor
          · intro _
            obtain ⟨f, hf, hl⟩ := h1
            exact ⟨f, by simp [List.mem_append, hf], hl⟩
          · intro _
            rw [hm]
        · have hAR : stA.face_cache u = stR.face_cache u := by
            rw [hstA]
            exact afc_cache_miss S1 opShort "Start" stR u (by rw [← hstA]; exact (conv1.not).mpr h1)
          rw [hAR] at hmeta
          have hfalse : meta.last_operation_label = false := by
            have : stR.face_cache u =
                (st.face_cache u).map (fun m => { m with last_operation_label := false }) := by
              rw [hstR]
            rw [this] at hmeta
            cases hc : st.face_cache u with
            | none => rw [hc] at hmeta; exact absurd hmeta (by simp)
            | some m0 =>
              rw [hc] at hmeta
              simp only [Option.map_some', Option.some.injEq] at hmeta
              rw [← hmeta]
          constructor
          · intro ht
            rw [hfalse] at ht
            exact absurd ht (by simp)
          · intro hex
            obtain ⟨f, hf, hl⟩ := hex
            rcases List.mem_append.mp hf with hf12 | hf3
            · rcases List.mem_append.mp hf12 with hf1 | hf2
              · exact absurd ⟨f, hf1, hl⟩ h1
              · exact absurd ⟨f, hf2, hl⟩ h2
            · exact absurd ⟨f, hf3, hl⟩ h3

/-- C6 witness: caching the box extrude over a state with one stale
flagged entry; exactly the uuids of the box extrude's reported faces end up
flagged `true`. -/
theorem c6_last_operation_label_witness :
    ∃ st1, add_extrude_to_cache c6State boxExtrude = .ok st1 ∧
      ∀ u meta, st1.face_cache u = some meta →
        (meta.last_operation_label = true ↔
          ∃ f ∈ reportedFaces boxExtrude c6State.marker,
            lookupTok st1.namer.table f.token = some u) := by
  have hok : (add_extrude_to_cache c6State boxExtrude).isOk = true := by rfl
  cases hh : add_extrude_to_cache c6State boxExtrude with
  | error er => rw [hh] at hok; exact absurd hok (by simp [Except.isOk, Except.toBool])
  | ok st1 => exact ⟨st1, rfl, c6_last_operation_label c6State boxExtrude st1 hh⟩

/-- One face-cache pass leaves the edge cache unchanged. -/
theorem afc_edge_cache (st : RState) (faces : List Face) (op loc : String) :
    (add_extrude_faces_to_cache st faces op loc).edge_cache = st.edge_cache :=
  (afc_unchanged faces op loc st).1

/-- One face-cache pass leaves the output data unchanged. -/
theorem afc_data (st : RState) (faces : List Face) (op loc : String) :
    (add_extrude_faces_to_cache st faces op loc).data = st.data :=
  (afc_unchanged faces op loc st).2.2.1

/-- One face-cache pass leaves the sequence unchanged. -/
theorem afc_sequence (st : RState) (faces : List Face) (op loc : String) :
    (add_extrude_faces_to_cache st faces op loc).sequence = st.sequence :=
  (afc_unchanged faces op loc st).2.2.2.1

/-- One face-cache pass leaves the extrude counter unchanged. -/
theorem afc_cei (st : RState) (faces : List Face) (op loc : String) :
    (add_extrude_faces_to_cache st faces op loc).current_extrude_index
      = st.current_extrude_index :=
  (afc_unchanged faces op loc st).2.2.2.2

/-- `add_extrude_to_cache` changes only the face cache and the namer. -/
theorem aec_unchanged (st : RState) (e : ExtrudeFeature) (st1 : RState)
    (hok : add_extrude_to_cache st e = .ok st1) :
    st1.edge_cache = st.edge_cache ∧ st1.marker = st.marker ∧ st1.data = st.data ∧
    st1.sequence = st.sequence ∧
    st1.current_extrude_index = st.current_extrude_index := by
  simp only [add_extrude_to_cache] at hok
  cases hop : get_extrude_operation e.operation with
  | error er => rw [hop] at hok; exact absurd hok (by simp)
  | ok p =>
    obtain ⟨opF, opS⟩ := p
    rw [hop] at hok
    simp only [Except.ok.injEq] at hok
    subst hok
    refine ⟨?_, ?_, ?_, ?_, ?_⟩
    · simp only [afc_edge_cache]
    · simp only [afc_marker]
    · simp only [afc_data]
    · simp only [afc_sequence]
    · simp only [afc_cei]

/-- `add_extrude_to_cache` only extends the namer. -/
theorem aec_namer_ext (st : RState) (e : ExtrudeFeature) (st1 : RState)
    (hok : add_extrude_to_cache st e = .ok st1) : NamerExt st.namer st1.namer := by
  simp only [add_extrude_to_cache] at hok
  cases hop : get_extrude_operation e.operation with
  | error er => rw [hop] at hok; exact absurd hok (by simp)
  | ok p =>
    obtain ⟨opF, opS⟩ := p
    rw [hop] at hok
    simp only [Except.ok.injEq] at hok
    subst hok
    refine namerExt_trans (namerExt_trans ?_ (afc_namer_ext _ opS "End" _))
      (afc_namer_ext _ opS "Side" _)
    exact afc_namer_ext (e.startFacesAt st.marker) opS "Start"
      { st with face_cache := fun u =>
          (st.face_cache u).map (fun m => { m with last_operation_label := false }) }

/-- The pre-pass changes only the face cache and the namer. -/
theorem prePass_unchanged : ∀ (tl : List TimelineEntity) (st st1 : RState),
    prePass st tl = .ok st1 →
    st1.data = st.data ∧ st1.marker = st.marker ∧ st1.sequence = st.sequence ∧
    st1.current_extrude_index = st.current_extrude_index ∧
    st1.edge_cache = st.edge_cache := by
  intro tl
  induction tl with
  | nil =>
    intro st st1 h
    simp only [prePass, Except.ok.injEq] at h
    subst h
    exact ⟨rfl, rfl, rfl, rfl, rfl⟩
  | cons x rest ih =>
    intro st st1 h
    cases x with
    | otherEnt => simp only [prePass] at h; exact ih st st1 h
    | extrudeEnt e =>
      simp only [prePass] at h
      cases hc : add_extrude_to_cache st e with
      | error er => rw [hc] at h; exact absurd h (by simp)
      | ok st2 =>
        rw [hc] at h
        have h2 := ih st2 st1 h
        have h3 := aec_unchanged st e st2 hc
        exact ⟨h2.1.trans h3.2.2.1, h2.2.1.trans h3.2.1, h2.2.2.1.trans h3.2.2.2.1,
          h2.2.2.2.1.trans h3.2.2.2.2, h2.2.2.2.2.trans h3.1⟩

/-- `enumTL` distributes over append. -/
theorem enumTL_append (l1 l2 : List TimelineEntity) : ∀ k,
    enumTL (l1 ++ l2) k = enumTL l1 k ++ enumTL l2 (k + l1.length) := by
  induction l1 with
  | nil => intro k; simp [enumTL]
  | cons x xs ih =>
    intro k
    show (k, x) :: enumTL (xs ++ l2) (k + 1)
        = (k, x) :: (enumTL xs (k + 1) ++ enumTL l2 (k + (x :: xs).length))
    rw [ih (k + 1)]
    have h : k + 1 + xs.length = k + (x :: xs).length := by
      simp only [List.length_cons]
      omega
    rw [h]

/-- The export loop ignores non-extrude timeline entries. -/
theorem genLoop_skip_others (geo : Geometry) (mode : String) (d : Design) :
    ∀ (l : List TimelineEntity), (∀ x ∈ l, x = .otherEnt) →
    ∀ (tail : List (Nat × TimelineEntity)) (k : Nat) (st : RState) (prev : Nat),
    genLoop geo mode d (enumTL l k ++ tail) st prev =
      genLoop geo mode d tail st prev := by
  intro l
  induction l with
  | nil => intro _ tail k st prev; rfl
  | cons x xs ih =>
    intro hall tail k st prev
    have hx : x = .otherEnt := hall x (List.mem_cons_self _ _)
    subst hx
    simp only [enumTL, List.cons_append, genLoop]
    exact ih (fun y hy => hall y (List.mem_cons_of_mem _ hy)) tail (k + 1) st prev

/-- A distance extrude with a non-zero numeric taper value is tapered. -/
theorem tapered_of_distance_taper (e : ExtrudeFeature) (dist q : ℚ)
    (h1 : e.extentOne = some (.distanceExtent dist))
    (h2 : e.taperAngleOne = some (.numValue q)) (h3 : q ≠ 0) :
    is_extrude_tapered e = true := by
  simp only [is_extrude_tapered, h1, h2]
  simp [bne_iff_ne, h3]

/-- A tapered extrude is reported unsupported with the taper reason, in any
mode. -/
theorem is_extrude_supported_taper (mode : String) (e : ExtrudeFeature) (m : Nat)
    (h : is_extrude_tapered e = true) :
    is_extrude_supported mode e m = (false, some "Extrude has taper") := by
  simp [is_extrude_supported, h]

/-- Unfolding of `generate` past a successful body check and pre-pass. -/
theorem generate_ok_prePass (geo : Geometry) (mode : String) (d : Design) (stP : RState)
    (hb : ¬ ((d.bodiesAt (initState d).marker).length = 0))
    (hP : prePass (initState d) d.timeline = .ok stP) :
    generate geo mode d =
      (if ¬ allFacesNamed stP (d.bodiesAt stP.marker) = true then
        (stP.data, some (.assertionError "face_uuid is not None"))
      else
        match genLoop geo mode d (enumTL d.timeline 0) stP 0 with
        | (st1, _, _, some er) => (st1.data, some er)
        | (st1, _, some reason, none) =>
          ({ st1.data with status := st1.data.status ++ [reason] }, none)
        | (st1, _, none, none) => ((generate_last geo mode st1).data, none)) := by
  unfold generate
  rw [if_neg hb, hP]

/-- Unfolding of one export-loop step on an unsupported extrude. -/
theorem genLoop_extrude_unsupported (geo : Geometry) (mode : String) (d : Design)
    (idx : Nat) (e : ExtrudeFeature) (tail : List (Nat × TimelineEntity))
    (st : RState) (prev : Nat) (reason : String)
    (h : is_extrude_supported mode e (idx + 1) = (false, some reason)) :
    genLoop geo mode d ((idx, .extrudeEnt e) :: tail) st prev =
      ({ st with marker := prev }, prev, some reason, none) := by
  simp only [genLoop]
  rw [show is_extrude_supported mode e
      ({ st with marker := idx + 1 } : RState).marker = (false, some reason) from h]

/-- C7 amended: when the FIRST extrude of the timeline is a distance
extrude whose taper angle parameter holds a non-zero number, generation
rejects it before any graph is emitted: the output is exactly
`graphs = []`, `sequences = []`, `status = ["Extrude has taper"]` (provided
the component is non-empty and the pre-pass assertions of `generate` hold).
The taper test fires only for `DistanceExtentDefinition` extents - see the
counterexample for a non-distance extent with a non-zero taper angle. -/
theorem c7_taper_rejection (geo : Geometry) (mode : String) (d : Design)
    (others rest : List TimelineEntity) (e : ExtrudeFeature)
    (hsplit : d.timeline = others ++ .extrudeEnt e :: rest)
    (hothers : ∀ x ∈ others, x = .otherEnt)
    (hbodies : ¬ ((d.bodiesAt d.timeline.length).length = 0))
    (hpre : prePassNamedOk d = true)
    (hdq : ∃ dist q, e.extentOne = some (.distanceExtent dist) ∧
      e.taperAngleOne = some (.numValue q) ∧ q ≠ 0) :
    generate geo mode d = (⟨[], [], ["Extrude has taper"]⟩, none) := by
  obtain ⟨dist, q, h1, h2, h3⟩ := hdq
  have htap := tapered_of_distance_taper e dist q h1 h2 h3
  unfold prePassNamedOk at hpre
  cases hP : prePass (initState d) d.timeline with
  | error er => rw [hP] at hpre; exact absurd hpre (by simp)
  | ok stP =>
    rw [hP] at hpre
    have hmark := (prePass_unchanged d.timeline (initState d) stP hP).2.1
    have hdata := (prePass_unchanged d.timeline (initState d) stP hP).1
    have hb2 : ¬ ((d.bodiesAt (initState d).marker).length = 0) := hbodies
    have hpre3 : allFacesNamed stP (d.bodiesAt stP.marker) = true := by
      rw [hmark]; exact hpre
    rw [generate_ok_prePass geo mode d stP hb2 hP]
    rw [if_neg (not_not_intro hpre3)]
    rw [hsplit, enumTL_append, genLoop_skip_others geo mode d others hothers]
    rw [show enumTL (TimelineEntity.extrudeEnt e :: rest) (0 + others.length)
        = (0 + others.length, TimelineEntity.extrudeEnt e)
          :: enumTL rest (0 + others.length + 1) from rfl]
    rw [genLoop_extrude_unsupported geo mode d (0 + others.length) e _ stP 0
      "Extrude has taper" (is_extrude_supported_taper mode e _ htap)]
    have hdata2 : stP.data = RegraphData.mk [] [] [] := hdata
    rw [show (match (({ stP with marker := 0 } : RState), 0, some "Extrude has taper",
        (none : Option Err)) with
      | (st1, _, _, some er) => (st1.data, some er)
      | (st1, _, some reason, none) =>
        ({ st1.data with status := st1.data.status ++ [reason] }, none)
      | (st1, _, none, none) => ((generate_last geo mode st1).data, none))
        = (({ stP.data with status := stP.data.status ++ ["Extrude has taper"] } : RegraphData),
          (none : Option Err)) from rfl]
    rw [hdata2]
    rfl

/-- C7 counterexample: a design whose first (and only) extrude carries a
non-zero taper angle value on a NON-distance extent definition (`extentOne`
of a to-entity kind) is NOT rejected: generation emits one graph with
status `["Success"]` instead of `graphs = []` and
`status = ["Extrude has taper"]`. -/
theorem c7_taper_counterexample :
    taperedOtherDesign.timeline = [.extrudeEnt taperedOtherExtrude] ∧
    taperedOtherExtrude.taperAngleOne = some (.numValue 1) ∧ (1 : ℚ) ≠ 0 ∧
    (generate geoW "PerExtrude" taperedOtherDesign).1.status = ["Success"] ∧
    (generate geoW "PerExtrude" taperedOtherDesign).1.graphs.length = 1 := by
  refine ⟨rfl, rfl, one_ne_zero, ?_, ?_⟩
  · rfl
  · rfl

/-- C7 witness: the same design with a genuine distance extent and taper
angle 1 is rejected with exactly the claimed output. -/
theorem c7_taper_rejection_witness :
    generate geoW "PerExtrude" taperedDistanceDesign =
      (⟨[], [], ["Extrude has taper"]⟩, none) :=
  c7_taper_rejection geoW "PerExtrude" taperedDistanceDesign [] [] taperedDistanceExtrude
    rfl (by simp) (by decide) (by rfl) ⟨1, 1, rfl, rfl, one_ne_zero⟩

/-- The edge scan fails with the two-faces assertion when some listed edge
has an adjacent-face count other than two. -/
theorem scanEdges_err (geo : Geometry) (mode : String) (concave : List Nat) :
    ∀ (l : List Edge) (st : RState), (∃ ed ∈ l, ed.faces.length ≠ 2) →
    scanEdges geo mode concave st l =
      .error (.assertionError "edge_faces.count == 2") := by
  intro l
  induction l with
  | nil => intro st h; exact absurd h (by simp)
  | cons e0 rest ih =>
    intro st h
    by_cases h0 : e0.faces.length ≠ 2
    · simp only [scanEdges, scanEdge, if_pos h0]
    · have hrest : ∃ ed ∈ rest, ed.faces.length ≠ 2 := by
        obtain ⟨ed, hm, hne⟩ := h
        rcases List.mem_cons.mp hm with hh | hm2
        · exact absurd (hh ▸ hne) h0
        · exact ⟨ed, hm2, hne⟩
      simp only [scanEdges, scanEdge, if_neg h0]
      exact ih _ hrest

/-- `add_edges_to_cache` fails with the two-faces assertion when some
scanned edge has an adjacent-face count other than two. -/
theorem add_edges_to_cache_err (geo : Geometry) (mode : String) (st : RState)
    (bodies : List Body)
    (h : ∃ ed ∈ bodies.flatMap (fun b => b.faces.flatMap (·.edges)),
      ed.faces.length ≠ 2) :
    add_edges_to_cache geo mode st bodies =
      .error (.assertionError "edge_faces.count == 2") := by
  unfold add_edges_to_cache
  exact scanEdges_err geo mode _ _ st h

/-- The support filter either accepts with no reason or rejects with one. -/
theorem is_extrude_supported_cases (mode : String) (e : ExtrudeFeature) (m : Nat) :
    is_extrude_supported mode e m = (true, none) ∨
    ∃ r, is_extrude_supported mode e m = (false, some r) := by
  unfold is_extrude_supported
  repeat' split
  all_goals first | (left; rfl) | (right; exact ⟨_, rfl⟩)

/-- The export loop on an appended list runs the first part and, when it
neither skipped nor failed, continues with the second from the reached
state. -/
theorem genLoop_append (geo : Geometry) (mode : String) (d : Design) :
    ∀ (l1 l2 : List (Nat × TimelineEntity)) (st : RState) (prev : Nat),
    genLoop geo mode d (l1 ++ l2) st prev =
      (match genLoop geo mode d l1 st prev with
       | (st1, prev1, none, none) => genLoop geo mode d l2 st1 prev1
       | out => out) := by
  intro l1
  induction l1 with
  | nil => intro l2 st prev; rfl
  | cons x rest ih =>
    intro l2 st prev
    obtain ⟨idx, ent⟩ := x
    cases ent with
    | otherEnt => exact ih l2 st prev
    | extrudeEnt e =>
      show genLoop geo mode d ((idx, .extrudeEnt e) :: (rest ++ l2)) st prev = _
      simp only [genLoop]
      rcases is_extrude_supported_cases mode e
          ({ st with marker := idx + 1 } : RState).marker with hs | ⟨r, hs⟩
      · rw [hs]
        cases hc : add_extrude_to_cache ({ st with marker := idx + 1 } : RState) e with
        | error er => rfl
        | ok stc =>
          cases he : add_edges_to_cache geo mode stc (d.bodiesAt stc.marker) with
          | error er => simp only [he]
          | ok ste =>
            simp only [he]
            cases hg : generate_from_extrude geo mode d ste e with
            | error er => simp only [hg]
            | ok stg => simp only [hg]; exact ih l2 stg stg.marker
      · rw [hs]

/-- Unfolding of one export-loop step whose edge-cache refresh fails: the
loop stops, propagating the error with the state (and data) it had after
the face-cache update - no graph is appended for this or any later step. -/
theorem genLoop_extrude_edges_err (geo : Geometry) (mode : String) (d : Design)
    (idx : Nat) (e : ExtrudeFeature) (tail : List (Nat × TimelineEntity))
    (st : RState) (prev : Nat) (st1 : RState) (er : Err)
    (hsupp : is_extrude_supported mode e (idx + 1) = (true, none))
    (hcac : add_extrude_to_cache { st with marker := idx + 1 } e = .ok st1)
    (herr : add_edges_to_cache geo mode st1 (d.bodiesAt st1.marker) = .error er) :
    genLoop geo mode d ((idx, .extrudeEnt e) :: tail) st prev =
      (st1, prev, none, some er) := by
  simp only [genLoop]
  rw [show is_extrude_supported mode e
      ({ st with marker := idx + 1 } : RState).marker = (true, none) from hsupp]
  simp only [hcac, herr]

/-- `get_extrude_operation` succeeds on every operation except
`NewComponent`. -/
theorem get_extrude_operation_ok (op : FeatureOperation) (h : op ≠ .newComponentOp) :
    ∃ p, get_extrude_operation op = .ok p := by
  cases op with
  | joinOp => exact ⟨("JoinFeatureOperation", "Extrude"), rfl⟩
  | cutOp => exact ⟨("CutFeatureOperation", "Cut"), rfl⟩
  | intersectOp => exact ⟨("IntersectFeatureOperation", "Intersect"), rfl⟩
  | newBodyOp => exact ⟨("NewBodyFeatureOperation", "Extrude"), rfl⟩
  | newComponentOp => exact absurd rfl h

/-- `add_extrude_to_cache` succeeds whenever the operation is not
`NewComponent`. -/
theorem aec_ok_of_op (st : RState) (e : ExtrudeFeature)
    (h : e.operation ≠ .newComponentOp) : ∃ st1, add_extrude_to_cache st e = .ok st1 := by
  obtain ⟨p, hop⟩ := get_extrude_operation_ok e.operation h
  obtain ⟨opF, opS⟩ := p
  unfold add_extrude_to_cache
  rw [hop]
  exact ⟨_, rfl⟩

/-- C3: when the first `k` timeline steps process cleanly and the edge scan
of the extrude at index `k` meets an edge whose adjacent-face count is not
two, `generate` stops with exactly that assertion failure and the data of
the prior successfully-processed steps, and the (spec-modelled) driver
`run_generation` returns normally, marking the design unsupported - a
graceful early termination, not a crash. -/
theorem c3_edge_assert_graceful (geo : Geometry) (mode : String) (d : Design)
    (pre rest : List TimelineEntity) (e : ExtrudeFeature)
    (stP st0 st1 : RState) (prev0 : Nat)
    (hsplit : d.timeline = pre ++ .extrudeEnt e :: rest)
    (hbodies : ¬ ((d.bodiesAt (initState d).marker).length = 0))
    (hP : prePass (initState d) d.timeline = .ok stP)
    (hnamed : allFacesNamed stP (d.bodiesAt stP.marker) = true)
    (hloop : genLoop geo mode d (enumTL pre 0) stP 0 = (st0, prev0, none, none))
    (hsupp : is_extrude_supported mode e (pre.length + 1) = (true, none))
    (hcac : add_extrude_to_cache { st0 with marker := pre.length + 1 } e = .ok st1)
    (hbad : ∃ ed ∈ scanAt d (pre.length + 1), ed.faces.length ≠ 2) :
    generate geo mode d =
      (st0.data, some (.assertionError "edge_faces.count == 2")) ∧
    run_generation geo mode d =
      { st0.data with status := st0.data.status ++
          ["Unsupported: edge_faces.count == 2"] } := by
  have hm1 : st1.marker = pre.length + 1 :=
    (aec_unchanged _ e st1 hcac).2.1
  have hd1 : st1.data = st0.data := (aec_unchanged _ e st1 hcac).2.2.1
  have herr : add_edges_to_cache geo mode st1 (d.bodiesAt st1.marker) =
      .error (.assertionError "edge_faces.count == 2") := by
    apply add_edges_to_cache_err
    rw [hm1]
    simpa [scanAt] using hbad
  have hG : genLoop geo mode d (enumTL d.timeline 0) stP 0 =
      (st1, prev0, none, some (.assertionError "edge_faces.count == 2")) := by
    rw [hsplit, enumTL_append, genLoop_append, hloop]
    show genLoop geo mode d (enumTL (.extrudeEnt e :: rest) (0 + pre.length)) st0 prev0 = _
    rw [show enumTL (.extrudeEnt e :: rest) (0 + pre.length)
        = (0 + pre.length, TimelineEntity.extrudeEnt e)
          :: enumTL rest (0 + pre.length + 1) from rfl]
    rw [Nat.zero_add]
    exact genLoop_extrude_edges_err geo mode d pre.length e _ st0 prev0 st1 _
      hsupp hcac herr
  have hgen : generate geo mode d =
      (st0.data, some (.assertionError "edge_faces.count == 2")) := by
    rw [generate_ok_prePass geo mode d stP hbodies hP]
    rw [if_neg (not_not_intro hnamed), hG]
    show (st1.data, some (Err.assertionError "edge_faces.count == 2"))
      = (st0.data, some (Err.assertionError "edge_faces.count == 2"))
    rw [hd1]
  refine ⟨hgen, ?_⟩
  unfold run_generation
  rw [hgen]
  rfl

/-- C3 witness: the box design with one pathological single-face edge stops
at the assertion and the driver reports it as unsupported with no graphs. -/
theorem c3_edge_assert_graceful_witness :
    run_generation geoW "PerExtrude" badEdgeDesign =
      { graphs := [], sequences := [],
        status := ["Unsupported: edge_faces.count == 2"] } := by
  have hpn : prePassNamedOk badEdgeDesign = true := by rfl
  unfold prePassNamedOk at hpn
  cases hP : prePass (initState badEdgeDesign) badEdgeDesign.timeline with
  | error er => rw [hP] at hpn; exact absurd hpn (by simp)
  | ok stP =>
    rw [hP] at hpn
    have hmark := (prePass_unchanged _ _ stP hP).2.1
    have hdata := (prePass_unchanged _ _ stP hP).1
    have hnamed : allFacesNamed stP (badEdgeDesign.bodiesAt stP.marker) = true := by
      rw [hmark]; exact hpn
    obtain ⟨st1, hcac⟩ := aec_ok_of_op
      { stP with marker := List.length ([] : List TimelineEntity) + 1 } boxExtrude
      (by decide)
    have h := c3_edge_assert_graceful geoW "PerExtrude" badEdgeDesign
      [] [] boxExtrude stP stP st1 0
      rfl (by decide) hP hnamed rfl (by rfl) hcac (by decide)
    rw [h.2, show stP.data = RegraphData.mk [] [] [] from hdata]
    rfl

-- -------------------------------------------------------------------------
-- C1: namer well-formedness and injectivity
-- -------------------------------------------------------------------------

/-- A successful table lookup exhibits a table entry. -/
theorem lookupTok_mem (l : List (Nat × Nat)) (t u : Nat)
    (h : lookupTok l t = some u) : (t, u) ∈ l := by
  induction l with
  | nil => exact absurd h (by simp [lookupTok])
  | cons p rest ih =>
    obtain ⟨a, b⟩ := p
    simp only [lookupTok] at h
    by_cases he : a = t
    · rw [if_pos he] at h
      have hb : b = u := Option.some.inj h
      rw [← he, ← hb]
      exact List.mem_cons_self _ _
    · rw [if_neg he] at h
      exact List.mem_cons_of_mem _ (ih h)

/-- Assigning an identity preserves namer well-formedness. -/
theorem name_set_uuid_wf (n : Namer) (t : Nat) (h : NamerWF n) :
    NamerWF (name_set_uuid n t).2 := by
  unfold name_set_uuid
  cases hl : lookupTok n.table t with
  | some u => exact h
  | none =>
    refine ⟨?_, ?_⟩
    · intro p hp
      rcases List.mem_cons.mp hp with hp | hp
      · rw [hp]; exact Nat.lt_succ_self _
      · exact Nat.lt_succ_of_lt (h.1 p hp)
    · refine List.pairwise_cons.mpr ⟨?_, h.2⟩
      intro q hq
      refine ⟨fun he => ?_, fun he => ?_⟩
      · exact lookupTok_none_ne n.table t hl q hq he.symm
      · exact Nat.lt_irrefl _ (he ▸ h.1 q hq)

/-- In a well-formed namer, two tokens resolving to the same identity are
equal. -/
theorem namer_lookup_inj (n : Namer) (hwf : NamerWF n) (t1 t2 u : Nat)
    (h1 : lookupTok n.table t1 = some u) (h2 : lookupTok n.table t2 = some u) :
    t1 = t2 := by
  by_contra hne
  have m1 := lookupTok_mem _ _ _ h1
  have m2 := lookupTok_mem _ _ _ h2
  have hpe : ((t1, u) : Nat × Nat) ≠ (t2, u) := fun he => hne (congrArg Prod.fst he)
  have hsym : Symmetric (fun (a b : Nat × Nat) => a.1 ≠ b.1 ∧ a.2 ≠ b.2) :=
    fun _ _ h => ⟨h.1.symm, h.2.symm⟩
  have := hwf.2.forall hsym m1 m2 hpe
  exact this.2 rfl

/-- In a well-formed namer, distinct tokens resolve to distinct
identities. -/
theorem namer_uid_ne (n : Namer) (hwf : NamerWF n) (t1 t2 u1 u2 : Nat)
    (h1 : lookupTok n.table t1 = some u1) (h2 : lookupTok n.table t2 = some u2)
    (hne : t1 ≠ t2) : u1 ≠ u2 := by
  intro he
  exact hne (namer_lookup_inj n hwf t1 t2 u1 h1 (he ▸ h2))

/-- One face-cache pass preserves namer well-formedness. -/
theorem afc_namer_wf (faces : List Face) (op loc : String) : ∀ st : RState,
    NamerWF st.namer → NamerWF (add_extrude_faces_to_cache st faces op loc).namer := by
  induction faces with
  | nil => intro st h; exact h
  | cons f rest ih =>
    intro st h
    simp only [add_extrude_faces_to_cache, List.foldl_cons] at ih ⊢
    exact ih (add_extrude_faces_to_cache_step op loc st f)
      (name_set_uuid_wf st.namer f.token h)

/-- `add_extrude_to_cache` preserves namer well-formedness. -/
theorem aec_namer_wf (st : RState) (e : ExtrudeFeature) (st1 : RState)
    (hok : add_extrude_to_cache st e = .ok st1) (h : NamerWF st.namer) :
    NamerWF st1.namer := by
  simp only [add_extrude_to_cache] at hok
  cases hop : get_extrude_operation e.operation with
  | error er => rw [hop] at hok; exact absurd hok (by simp)
  | ok p =>
    obtain ⟨opF, opS⟩ := p
    rw [hop] at hok
    simp only [Except.ok.injEq] at hok
    subst hok
    exact afc_namer_wf _ opS "Side" _ (afc_namer_wf _ opS "End" _
      (afc_namer_wf _ opS "Start" _ h))

/-- The pre-pass preserves namer well-formedness. -/
theorem prePass_namer_wf : ∀ (tl : List TimelineEntity) (st st1 : RState),
    prePass st tl = .ok st1 → NamerWF st.namer → NamerWF st1.namer := by
  intro tl
  induction tl with
  | nil =>
    intro st st1 h hw
    simp only [prePass, Except.ok.injEq] at h
    subst h
    exact hw
  | cons x rest ih =>
    intro st st1 h hw
    cases x with
    | otherEnt => simp only [prePass] at h; exact ih st st1 h hw
    | extrudeEnt e =>
      simp only [prePass] at h
      cases hc : add_extrude_to_cache st e with
      | error er => rw [hc] at h; exact absurd h (by simp)
      | ok st2 =>
        rw [hc] at h
        exact ih st2 st1 h (aec_namer_wf st e st2 hc hw)

/-- After a successful `add_extrude_to_cache`, every face the extrude
reports at the call marker is named. -/
theorem aec_names (st : RState) (e : ExtrudeFeature) (st1 : RState)
    (hok : add_extrude_to_cache st e = .ok st1) :
    ∀ f ∈ reportedFaces e st.marker,
      (lookupTok st1.namer.table f.token).isSome = true := by
  simp only [add_extrude_to_cache] at hok
  cases hop : get_extrude_operation e.operation with
  | error er => rw [hop] at hok; exact absurd hok (by simp)
  | ok p =>
    obtain ⟨opF, opS⟩ := p
    rw [hop] at hok
    simp only [Except.ok.injEq] at hok
    subst hok
    simp only [afc_marker, reportedFaces]
    set stR : RState :=
      { st with
        face_cache := fun u => (st.face_cache u).map
          (fun m => { m with last_operation_label := false }) } with hstR
    set S1 := e.startFacesAt st.marker with hS1
    set S2 := e.endFacesAt st.marker with hS2
    set S3 := e.sideFacesAt st.marker with hS3
    set stA := add_extrude_faces_to_cache stR S1 opS "Start" with hstA
    set stB := add_extrude_faces_to_cache stA S2 opS "End" with hstB
    intro f hf
    rcases List.mem_append.mp hf with hf12 | hf3
    · rcases List.mem_append.mp hf12 with hf1 | hf2
      · have h1 := afc_names S1 opS "Start" stR f hf1
        rw [← hstA] at h1
        obtain ⟨u, hu⟩ := Option.isSome_iff_exists.mp h1
        have h2 := afc_namer_ext S2 opS "End" stA f.token u hu
        rw [← hstB] at h2
        have h3 := afc_namer_ext S3 opS "Side" stB f.token u h2
        rw [h3]
        rfl
      · have h1 := afc_names S2 opS "End" stA f hf2
        rw [← hstB] at h1
        obtain ⟨u, hu⟩ := Option.isSome_iff_exists.mp h1
        have h2 := afc_namer_ext S3 opS "Side" stB f.token u hu
        rw [h2]
        rfl
    · exact afc_names S3 opS "Side" stB f hf3

-- -------------------------------------------------------------------------
-- C1: the edge scan writes correct, current entries
-- -------------------------------------------------------------------------

/-- A successful edge scan visited only edges with exactly two adjacent
faces. -/
theorem scanEdges_ok_two (geo : Geometry) (mode : String) (concave : List Nat) :
    ∀ (L : List Edge) (st st1 : RState),
    scanEdges geo mode concave st L = .ok st1 → ∀ e ∈ L, e.faces.length = 2 := by
  intro L
  induction L with
  | nil => intro st st1 _ e he; exact absurd he (by simp)
  | cons e0 rest ih =>
    intro st st1 h e he
    simp only [scanEdges] at h
    cases hs : scanEdge geo mode concave st e0 with
    | error er => rw [hs] at h; exact absurd h (by simp)
    | ok stm =>
      simp only [hs] at h
      rcases List.mem_cons.mp he with he | he
      · subst he
        by_contra hne
        simp only [scanEdge, if_pos hne] at hs
        exact absurd hs (by simp)
      · exact ih stm st1 h e he

/-- The invariant of the edge-scan fold: over a coherent scope `P` of edges
whose adjacent faces are all named in the pre-scan state `stA`, a
successful scan extends the namer keeping it well formed, leaves every
other state component unchanged, and leaves every scanned edge with a
correct, current cache entry (later writes can only overwrite an entry
with the same value, because equal identities force equal tokens and
coherence forces equal edges). -/
theorem scanEdges_good (geo : Geometry) (mode : String) (concave : List Nat)
    (stA : RState) (P : List Edge)
    (hcoh : ∀ e1 ∈ P, ∀ e2 ∈ P, e1.token = e2.token → e1 = e2)
    (hnm : ∀ e ∈ P, ∀ f ∈ e.faces,
      (lookupTok stA.namer.table f.token).isSome = true) :
    ∀ (L done : List Edge) (st st1 : RState),
    (∀ e ∈ L, e ∈ P) → (∀ e ∈ done, e ∈ P) →
    NamerWF st.namer → NamerExt stA.namer st.namer →
    (∀ e ∈ done, goodEdgeEntry geo mode concave stA st e) →
    scanEdges geo mode concave st L = .ok st1 →
    NamerWF st1.namer ∧ NamerExt stA.namer st1.namer ∧
    (∀ e, e ∈ done ∨ e ∈ L → goodEdgeEntry geo mode concave stA st1 e) ∧
    st1.face_cache = st.face_cache ∧ st1.marker = st.marker ∧
    st1.data = st.data ∧ st1.sequence = st.sequence ∧
    st1.current_extrude_index = st.current_extrude_index := by
  intro L
  induction L with
  | nil =>
    intro done st st1 _ _ hwf hext hgood hok
    simp only [scanEdges, Except.ok.injEq] at hok
    subst hok
    refine ⟨hwf, hext, ?_, rfl, rfl, rfl, rfl, rfl⟩
    intro e he
    rcases he with he | he
    · exact hgood e he
    · exact absurd he (by simp)
  | cons e0 rest ih =>
    intro done st st1 hLP hdoneP hwf hext hgood hok
    simp only [scanEdges] at hok
    cases hs : scanEdge geo mode concave st e0 with
    | error er => rw [hs] at hok; exact absurd hok (by simp)
    | ok stm =>
      simp only [hs] at hok
      have he0P : e0 ∈ P := hLP e0 (List.mem_cons_self _ _)
      have h2 : e0.faces.length = 2 := by
        by_contra hne
        simp only [scanEdge, if_pos hne] at hs
        exact absurd hs (by simp)
      have hne2 : ¬ e0.faces.length ≠ 2 := not_not_intro h2
      have heq : stm =
          { st with
            namer := (name_set_uuid st.namer e0.token).2
            edge_cache := fun u =>
              if u = (name_set_uuid st.namer e0.token).1 then
                some { temp_id := e0.tempId
                       source := name_get_uuid (name_set_uuid st.namer e0.token).2
                         (e0.faces.getD 0 default).token
                       target := name_get_uuid (name_set_uuid st.namer e0.token).2
                         (e0.faces.getD 1 default).token
                       convexity :=
                         if mode = "PerExtrude" then
                           some (get_edge_convexity geo e0
                             (decide (e0.tempId ∈ concave)))
                         else none }
              else st.edge_cache u } := by
        have hss := hs
        simp only [scanEdge, if_neg hne2] at hss
        exact (Except.ok.inj hss).symm
      have hwfm : NamerWF stm.namer := by
        rw [heq]
        exact name_set_uuid_wf st.namer e0.token hwf
      have hextm : NamerExt st.namer stm.namer := by
        rw [heq]
        exact name_set_uuid_ext st.namer e0.token
      have hextAm : NamerExt stA.namer stm.namer := namerExt_trans hext hextm
      have hself : lookupTok stm.namer.table e0.token
          = some (name_set_uuid st.namer e0.token).1 := by
        rw [heq]
        exact name_set_uuid_lookup_self st.namer e0.token
      obtain ⟨a, b, hab⟩ := List.length_eq_two.mp h2
      have hga : e0.faces.getD 0 default = a := by rw [hab]; rfl
      have hgb : e0.faces.getD 1 default = b := by rw [hab]; rfl
      have hamem : a ∈ e0.faces := by rw [hab]; exact List.mem_cons_self _ _
      have hbmem : b ∈ e0.faces := by
        rw [hab]; exact List.mem_cons_of_mem _ (List.mem_cons_self _ _)
      obtain ⟨ua, hua⟩ := Option.isSome_iff_exists.mp (hnm e0 he0P a hamem)
      obtain ⟨ub, hub⟩ := Option.isSome_iff_exists.mp (hnm e0 he0P b hbmem)
      have hsa : name_get_uuid (name_set_uuid st.namer e0.token).2
          (e0.faces.getD 0 default).token
          = name_get_uuid stA.namer (e0.faces.getD 0 default).token := by
        rw [hga]
        show lookupTok (name_set_uuid st.namer e0.token).2.table a.token
          = lookupTok stA.namer.table a.token
        rw [hua, namerExt_trans hext (name_set_uuid_ext st.namer e0.token) a.token ua hua]
      have hsb : name_get_uuid (name_set_uuid st.namer e0.token).2
          (e0.faces.getD 1 default).token
          = name_get_uuid stA.namer (e0.faces.getD 1 default).token := by
        rw [hgb]
        show lookupTok (name_set_uuid st.namer e0.token).2.table b.token
          = lookupTok stA.namer.table b.token
        rw [hub, namerExt_trans hext (name_set_uuid_ext st.namer e0.token) b.token ub hub]
      have hhit : stm.edge_cache (name_set_uuid st.namer e0.token).1
          = some (mkScanEntry geo mode concave stA e0) := by
        rw [heq]
        show (if (name_set_uuid st.namer e0.token).1
              = (name_set_uuid st.namer e0.token).1 then
            some { temp_id := e0.tempId
                   source := name_get_uuid (name_set_uuid st.namer e0.token).2
                     (e0.faces.getD 0 default).token
                   target := name_get_uuid (name_set_uuid st.namer e0.token).2
                     (e0.faces.getD 1 default).token
                   convexity :=
                     if mode = "PerExtrude" then
                       some (get_edge_convexity geo e0 (decide (e0.tempId ∈ concave)))
                     else none }
          else st.edge_cache (name_set_uuid st.namer e0.token).1)
          = some (mkScanEntry geo mode concave stA e0)
        rw [if_pos rfl, hsa, hsb]
        rfl
      have hmiss : ∀ u, u ≠ (name_set_uuid st.namer e0.token).1 →
          stm.edge_cache u = st.edge_cache u := by
        intro u hne
        rw [heq]
        show (if u = (name_set_uuid st.namer e0.token).1 then
            some { temp_id := e0.tempId
                   source := name_get_uuid (name_set_uuid st.namer e0.token).2
                     (e0.faces.getD 0 default).token
                   target := name_get_uuid (name_set_uuid st.namer e0.token).2
                     (e0.faces.getD 1 default).token
                   convexity :=
                     if mode = "PerExtrude" then
                       some (get_edge_convexity geo e0 (decide (e0.tempId ∈ concave)))
                     else none }
          else st.edge_cache u) = st.edge_cache u
        rw [if_neg hne]
      have hgoodm : ∀ e ∈ e0 :: done, goodEdgeEntry geo mode concave stA stm e := by
        intro e he
        rcases List.mem_cons.mp he with he | he
        · subst he
          exact ⟨(name_set_uuid st.namer e.token).1, hself, hhit⟩
        · obtain ⟨u, hu, hc⟩ := hgood e he
          refine ⟨u, hextm e.token u hu, ?_⟩
          by_cases hcase : u = (name_set_uuid st.namer e0.token).1
          · have hu2 : lookupTok stm.namer.table e.token
                = some (name_set_uuid st.namer e0.token).1 := by
              rw [← hcase]
              exact hextm e.token u hu
            have htok : e.token = e0.token :=
              namer_lookup_inj stm.namer hwfm e.token e0.token _ hu2 hself
            have hee0 : e = e0 := hcoh e (hdoneP e he) e0 he0P htok
            rw [hcase, hee0]
            exact hhit
          · rw [hmiss u hcase]
            exact hc
      have hres := ih (e0 :: done) stm st1
        (fun e he => hLP e (List.mem_cons_of_mem _ he))
        (fun e he => (List.mem_cons.mp he).elim (fun h => h ▸ he0P) (hdoneP e))
        hwfm hextAm hgoodm hok
      have hfcm : stm.face_cache = st.face_cache := by rw [heq]
      have hmm : stm.marker = st.marker := by rw [heq]
      have hdm : stm.data = st.data := by rw [heq]
      have hsm : stm.sequence = st.sequence := by rw [heq]
      have hcm : stm.current_extrude_index = st.current_extrude_index := by rw [heq]
      refine ⟨hres.1, hres.2.1, ?_, hres.2.2.2.1.trans hfcm,
        hres.2.2.2.2.1.trans hmm, hres.2.2.2.2.2.1.trans hdm,
        hres.2.2.2.2.2.2.1.trans hsm, hres.2.2.2.2.2.2.2.trans hcm⟩
      intro e he
      rcases he with he | he
      · exact hres.2.2.1 e (Or.inl (List.mem_cons_of_mem _ he))
      · rcases List.mem_cons.mp he with he | he
        · exact hres.2.2.1 e (Or.inl (he ▸ List.mem_cons_self _ _))
        · exact hres.2.2.1 e (Or.inr he)

-- -------------------------------------------------------------------------
-- C1: graph construction
-- -------------------------------------------------------------------------

/-- A successful `PerExtrude` node collection: one node per face, the node
identities are the faces' identities, and every face is named. -/
theorem collectNodes_ids (st : RState) :
    ∀ (faces : List Face) (nds : List NodeData),
    collectNodes "PerExtrude" st faces = .ok nds →
    nds.map (fun nd => nd.id) = faces.map (uidOf st) ∧
    nds.length = faces.length ∧
    ∀ f ∈ faces, (lookupTok st.namer.table f.token).isSome = true := by
  intro faces
  induction faces with
  | nil =>
    intro nds h
    simp only [collectNodes, Except.ok.injEq] at h
    subst h
    exact ⟨rfl, rfl, by simp⟩
  | cons f rest ih =>
    intro nds h
    simp only [collectNodes] at h
    cases hfd : get_face_data "PerExtrude" st f with
    | error er => rw [hfd] at h; exact absurd h (by simp)
    | ok nd =>
      rw [hfd] at h
      cases hrest : collectNodes "PerExtrude" st rest with
      | error er => rw [hrest] at h; exact absurd h (by simp)
      | ok nds2 =>
        simp only [hrest, Except.ok.injEq] at h
        subst h
        obtain ⟨hids, hlen, hnamed⟩ := ih nds2 hrest
        simp only [get_face_data] at hfd
        cases hl : name_get_uuid st.namer f.token with
        | none => simp only [hl] at hfd; exact absurd hfd (by simp)
        | some u =>
          simp only [hl, if_true] at hfd
          cases hc : st.face_cache u with
          | none => simp only [hc] at hfd; exact absurd hfd (by simp)
          | some m =>
            simp only [hc, Except.ok.injEq] at hfd
            subst hfd
            have hid : u = uidOf st f := by
              unfold uidOf
              unfold name_get_uuid at hl
              rw [hl]
              rfl
            refine ⟨?_, ?_, ?_⟩
            · simp only [List.map_cons, hids]
              rw [show (get_face_data_per_extrude f u m).id = u from rfl, hid]
            · simp only [List.length_cons, hlen]
            · intro f2 hf2
              rcases List.mem_cons.mp hf2 with hf2 | hf2
              · subst hf2
                unfold name_get_uuid at hl
                rw [hl]
                rfl
              · exact hnamed f2 hf2

/-- A successful `PerExtrude` link collection: one link per edge, and every
link copies the cached source and target identities of some listed edge. -/
theorem collectLinks_spec (geo : Geometry) (st : RState) :
    ∀ (edges : List Edge) (lds : List LinkData),
    collectLinks geo "PerExtrude" st edges = .ok lds →
    lds.length = edges.length ∧
    ∀ ld ∈ lds, ∃ e ∈ edges, ∃ u meta,
      lookupTok st.namer.table e.token = some u ∧
      st.edge_cache u = some meta ∧
      ld.source = meta.source ∧ ld.target = meta.target := by
  intro edges
  induction edges with
  | nil =>
    intro lds h
    simp only [collectLinks, Except.ok.injEq] at h
    subst h
    exact ⟨rfl, by simp⟩
  | cons e rest ih =>
    intro lds h
    simp only [collectLinks] at h
    cases hed : get_edge_data geo "PerExtrude" st e with
    | error er => rw [hed] at h; exact absurd h (by simp)
    | ok ld =>
      rw [hed] at h
      cases hrest : collectLinks geo "PerExtrude" st rest with
      | error er => rw [hrest] at h; exact absurd h (by simp)
      | ok lds2 =>
        simp only [hrest, Except.ok.injEq] at h
        subst h
        obtain ⟨hlen, hspec⟩ := ih lds2 hrest
        simp only [get_edge_data] at hed
        cases hl : name_get_uuid st.namer e.token with
        | none => simp only [hl] at hed; exact absurd hed (by simp)
        | some u =>
          simp only [hl] at hed
          cases hc : st.edge_cache u with
          | none => simp only [hc] at hed; exact absurd hed (by simp)
          | some meta =>
            simp only [hc, if_true] at hed
            simp only [get_edge_data_per_extrude] at hed
            cases hcv : meta.convexity with
            | none => simp only [hcv] at hed; exact absurd hed (by simp)
            | some cv =>
              simp only [hcv, Except.ok.injEq] at hed
              subst hed
              refine ⟨by simp [hlen], ?_⟩
              intro ld2 hld2
              rcases List.mem_cons.mp hld2 with hld2 | hld2
              · subst hld2
                exact ⟨e, List.mem_cons_self _ _, u, meta,
                  (by unfold name_get_uuid at hl; exact hl), hc, rfl, rfl⟩
              · obtain ⟨e2, he2, u2, m2, h1, h2, h3, h4⟩ := hspec ld2 hld2
                exact ⟨e2, List.mem_cons_of_mem _ he2, u2, m2, h1, h2, h3, h4⟩

/-- Node collection distributes over list append. -/
theorem collectNodes_append (mode : String) (st : RState) :
    ∀ (l1 l2 : List Face) (n1 n2 : List NodeData),
    collectNodes mode st l1 = .ok n1 → collectNodes mode st l2 = .ok n2 →
    collectNodes mode st (l1 ++ l2) = .ok (n1 ++ n2) := by
  intro l1
  induction l1 with
  | nil =>
    intro l2 n1 n2 h1 h2
    simp only [collectNodes, Except.ok.injEq] at h1
    subst h1
    simpa using h2
  | cons f rest ih =>
    intro l2 n1 n2 h1 h2
    simp only [collectNodes] at h1 ⊢
    cases hfd : get_face_data mode st f with
    | error er => rw [hfd] at h1; exact absurd h1 (by simp)
    | ok nd =>
      rw [hfd] at h1
      cases hrest : collectNodes mode st rest with
      | error er => rw [hrest] at h1; exact absurd h1 (by simp)
      | ok nds2 =>
        simp only [hrest, Except.ok.injEq] at h1
        subst h1
        rw [show collectNodes mode st (rest.append l2) = Except.ok (nds2 ++ n2)
          from ih l2 nds2 n2 hrest h2]
        rfl

/-- Link collection distributes over list append. -/
theorem collectLinks_append (geo : Geometry) (mode : String) (st : RState) :
    ∀ (l1 l2 : List Edge) (n1 n2 : List LinkData),
    collectLinks geo mode st l1 = .ok n1 → collectLinks geo mode st l2 = .ok n2 →
    collectLinks geo mode st (l1 ++ l2) = .ok (n1 ++ n2) := by
  intro l1
  induction l1 with
  | nil =>
    intro l2 n1 n2 h1 h2
    simp only [collectLinks, Except.ok.injEq] at h1
    subst h1
    simpa using h2
  | cons e rest ih =>
    intro l2 n1 n2 h1 h2
    simp only [collectLinks] at h1 ⊢
    cases hed : get_edge_data geo mode st e with
    | error er => rw [hed] at h1; exact absurd h1 (by simp)
    | ok ld =>
      rw [hed] at h1
      cases hrest : collectLinks geo mode st rest with
      | error er => rw [hrest] at h1; exact absurd h1 (by simp)
      | ok lds2 =>
        simp only [hrest, Except.ok.injEq] at h1
        subst h1
        rw [show collectLinks geo mode st (rest.append l2) = Except.ok (lds2 ++ n2)
          from ih l2 lds2 n2 hrest h2]
        rfl

/-- A successful body loop of the graph builder appends exactly the node
collection over all faces and the link collection over all edges of the
listed bodies. -/
theorem graphBodies_spec (geo : Geometry) (mode : String) (st : RState) :
    ∀ (bodies : List Body) (g0 g : Graph),
    graphBodies geo mode st g0 bodies = .ok g →
    ∃ nds lds, collectNodes mode st (facesOfBodies bodies) = .ok nds ∧
      collectLinks geo mode st (edgesOfBodies bodies) = .ok lds ∧
      g.nodes = g0.nodes ++ nds ∧ g.links = g0.links ++ lds := by
  intro bodies
  induction bodies with
  | nil =>
    intro g0 g h
    simp only [graphBodies, Except.ok.injEq] at h
    subst h
    exact ⟨[], [], rfl, rfl, by simp, by simp⟩
  | cons b rest ih =>
    intro g0 g h
    simp only [graphBodies] at h
    cases hgb : graphBody geo mode st g0 b with
    | error er => rw [hgb] at h; exact absurd h (by simp)
    | ok g1 =>
      simp only [hgb] at h
      obtain ⟨nds, lds, hcn, hcl, hn, hl⟩ := ih g1 g h
      simp only [graphBody] at hgb
      cases hn0 : collectNodes mode st (b.faces.map (fun fe => fe.face)) with
      | error er => rw [hn0] at hgb; exact absurd hgb (by simp)
      | ok ns =>
        rw [hn0] at hgb
        cases hl0 : collectLinks geo mode st b.edges with
        | error er => rw [hl0] at hgb; exact absurd hgb (by simp)
        | ok ls =>
          simp only [hl0, Except.ok.injEq] at hgb
          subst hgb
          refine ⟨ns ++ nds, ls ++ lds, ?_, ?_, ?_, ?_⟩
          · rw [show facesOfBodies (b :: rest)
                = b.faces.map (fun fe => fe.face) ++ facesOfBodies rest by
              simp [facesOfBodies]]
            exact collectNodes_append mode st _ _ _ _ hn0 hcn
          · rw [show edgesOfBodies (b :: rest) = b.edges ++ edgesOfBodies rest by
              simp [edgesOfBodies]]
            exact collectLinks_append geo mode st _ _ _ _ hl0 hcl
          · rw [hn]
            show (g0.nodes ++ ns) ++ nds = g0.nodes ++ (ns ++ nds)
            rw [List.append_assoc]
          · rw [hl]
            show (g0.links ++ ls) ++ lds = g0.links ++ (ls ++ lds)
            rw [List.append_assoc]

/-- With a well-formed namer, faces with pairwise distinct tokens that are
all named map to pairwise distinct identities. -/
theorem nodup_map_uidOf (st : RState) (faces : List Face)
    (hwf : NamerWF st.namer)
    (hnamed : ∀ f ∈ faces, (lookupTok st.namer.table f.token).isSome = true)
    (hdist : faces.Pairwise (fun f g => f.token ≠ g.token)) :
    (faces.map (uidOf st)).Nodup := by
  have hfnodup : faces.Nodup :=
    hdist.imp (fun h he => h (by rw [he]))
  apply List.Nodup.map_on _ hfnodup
  intro x hx y hy hxy
  by_contra hne
  have hsym : Symmetric (fun (f g : Face) => f.token ≠ g.token) :=
    fun _ _ h => h.symm
  have htok : x.token ≠ y.token := hdist.forall hsym hx hy hne
  obtain ⟨ux, hux⟩ := Option.isSome_iff_exists.mp (hnamed x hx)
  obtain ⟨uy, huy⟩ := Option.isSome_iff_exists.mp (hnamed y hy)
  have hud : ux ≠ uy := namer_uid_ne st.namer hwf x.token y.token ux uy hux huy htok
  apply hud
  have h1 : uidOf st x = ux := by unfold uidOf; rw [hux]; rfl
  have h2 : uidOf st y = uy := by unfold uidOf; rw [huy]; rfl
  rw [← h1, ← h2, hxy]

/-- A `PerExtrude` graph built by `get_graph` over non-degenerate bodies,
in a state reached by a coherent cache refresh, passes every check of
`test_per_extrude_graph`. -/
theorem get_graph_valid (geo : Geometry) (concave : List Nat) (stA st : RState)
    (bodies : List Body) (g : Graph)
    (hwf : NamerWF st.namer)
    (hext : NamerExt stA.namer st.namer)
    (hdist : (facesOfBodies bodies).Pairwise (fun f g => f.token ≠ g.token))
    (hnamedA : ∀ f ∈ facesOfBodies bodies,
      (lookupTok stA.namer.table f.token).isSome = true)
    (hbne : bodies ≠ [])
    (hsolid : ∀ b ∈ bodies, 3 ≤ b.faces.length ∧ 2 ≤ b.edges.length)
    (hedges : ∀ e ∈ edgesOfBodies bodies,
      e.faces.length = 2 ∧
      goodEdgeEntry geo "PerExtrude" concave stA st e ∧
      ∀ f ∈ e.faces, f ∈ facesOfBodies bodies)
    (hg : get_graph geo "PerExtrude" st bodies = .ok g) :
    test_per_extrude_graph g = true := by
  unfold get_graph at hg
  obtain ⟨nds, lds, hcn, hcl, hn, hl⟩ := graphBodies_spec geo "PerExtrude" st bodies _ _ hg
  have hnodes : g.nodes = nds := by rw [hn]; rfl
  have hlinks : g.links = lds := by rw [hl]; rfl
  obtain ⟨hids, hlen, hnamedSt⟩ := collectNodes_ids st _ _ hcn
  obtain ⟨hllen, hld⟩ := collectLinks_spec geo st _ _ hcl
  obtain ⟨b0, brest, hb⟩ := List.exists_cons_of_ne_nil hbne
  have hcount : 3 ≤ g.nodes.length := by
    rw [hnodes, hlen, hb]
    rw [show facesOfBodies (b0 :: brest)
        = b0.faces.map (fun fe => fe.face) ++ facesOfBodies brest by
      simp [facesOfBodies]]
    rw [List.length_append, List.length_map]
    have h3 := (hsolid b0 (hb ▸ List.mem_cons_self _ _)).1
    omega
  have hlcount : 2 ≤ g.links.length := by
    rw [hlinks, hllen, hb]
    rw [show edgesOfBodies (b0 :: brest) = b0.edges ++ edgesOfBodies brest by
      simp [edgesOfBodies]]
    rw [List.length_append]
    have h2 := (hsolid b0 (hb ▸ List.mem_cons_self _ _)).2
    omega
  have hnids : nodeIds g = (facesOfBodies bodies).map (uidOf st) := by
    unfold nodeIds
    rw [hnodes]
    exact hids
  have hnodup : (nodeIds g).Nodup := by
    rw [hnids]
    exact nodup_map_uidOf st _ hwf hnamedSt hdist
  have hmem : ∀ f ∈ facesOfBodies bodies, ∃ uf,
      lookupTok stA.namer.table f.token = some uf ∧ uf ∈ nodeIds g := by
    intro f hf
    obtain ⟨uf, huf⟩ := Option.isSome_iff_exists.mp (hnamedA f hf)
    refine ⟨uf, huf, ?_⟩
    rw [hnids]
    have hst : uidOf st f = uf := by
      unfold uidOf
      rw [hext f.token uf huf]
      rfl
    rw [← hst]
    exact List.mem_map_of_mem _ hf
  have hlink : ∀ l ∈ g.links,
      ((match l.source with
        | some s => decide (s ∈ nodeIds g)
        | none => false) &&
       (match l.target with
        | some t => decide (t ∈ nodeIds g)
        | none => false)) = true := by
    intro l hlm
    rw [hlinks] at hlm
    obtain ⟨e, he, u, meta, hu, hc, hsrc, htgt⟩ := hld l hlm
    obtain ⟨h2, ⟨u2, hu2, hc2⟩, hfmem⟩ := hedges e he
    have huu : u = u2 := Option.some.inj (hu.symm.trans hu2)
    have hmeta : meta = mkScanEntry geo "PerExtrude" concave stA e := by
      rw [huu] at hc
      exact Option.some.inj (hc.symm.trans hc2)
    obtain ⟨a, b, hab⟩ := List.length_eq_two.mp h2
    have hga : e.faces.getD 0 default = a := by rw [hab]; rfl
    have hgb : e.faces.getD 1 default = b := by rw [hab]; rfl
    have hamem : a ∈ e.faces := by rw [hab]; exact List.mem_cons_self _ _
    have hbmem : b ∈ e.faces := by
      rw [hab]; exact List.mem_cons_of_mem _ (List.mem_cons_self _ _)
    obtain ⟨ua, hua, hina⟩ := hmem a (hfmem a hamem)
    obtain ⟨ub, hub, hinb⟩ := hmem b (hfmem b hbmem)
    have hs : l.source = some ua := by
      rw [hsrc, hmeta]
      show name_get_uuid stA.namer (e.faces.getD 0 default).token = some ua
      rw [hga]
      exact hua
    have ht : l.target = some ub := by
      rw [htgt, hmeta]
      show name_get_uuid stA.namer (e.faces.getD 1 default).token = some ub
      rw [hgb]
      exact hub
    simp only [hs, ht]
    rw [Bool.and_eq_true]
    exact ⟨decide_eq_true hina, decide_eq_true hinb⟩
  unfold test_per_extrude_graph
  rw [decide_eq_true hcount, decide_eq_true hlcount, decide_eq_true hnodup,
    List.all_eq_true.mpr hlink]
  rfl

/-- Decoding `test_per_extrude_graph`: a graph passing the test has at
least 3 nodes, at least 2 links, pairwise distinct node identities, and
every link's source and target identity among the node identities. -/
theorem test_per_extrude_graph_spec (g : Graph)
    (h : test_per_extrude_graph g = true) :
    3 ≤ g.nodes.length ∧ 2 ≤ g.links.length ∧ (nodeIds g).Nodup ∧
    ∀ l ∈ g.links, ∃ s t, l.source = some s ∧ l.target = some t ∧
      s ∈ nodeIds g ∧ t ∈ nodeIds g := by
  unfold test_per_extrude_graph at h
  rw [Bool.and_eq_true, Bool.and_eq_true, Bool.and_eq_true] at h
  obtain ⟨⟨⟨h1, h2⟩, h3⟩, h4⟩ := h
  refine ⟨of_decide_eq_true h1, of_decide_eq_true h2, of_decide_eq_true h3, ?_⟩
  intro l hl
  have h5 := List.all_eq_true.mp h4 l hl
  rw [Bool.and_eq_true] at h5
  obtain ⟨hs, ht⟩ := h5
  cases hsl : l.source with
  | none => rw [hsl] at hs; exact absurd hs (by simp)
  | some s =>
    simp only [hsl] at hs
    cases htl : l.target with
    | none => rw [htl] at ht; exact absurd ht (by simp)
    | some t =>
      simp only [htl] at ht
      exact ⟨s, t, rfl, rfl, of_decide_eq_true hs, of_decide_eq_true ht⟩

-- -------------------------------------------------------------------------
-- C1: the export loop preserves graph validity
-- -------------------------------------------------------------------------

/-- Indexing an append at the length of the first part yields the head of
the second. -/
theorem getAt_append_cons {α : Type} (pre : List α) (x : α) (rest : List α) :
    (pre ++ x :: rest)[pre.length]? = some x := by
  induction pre with
  | nil => simp
  | cons y ys ih =>
    simp only [List.cons_append, List.length_cons, List.getElem?_cons_succ]
    exact ih

/-- The core induction for C1: under backend well-formedness and
provenance, every state reached by the `PerExtrude` export loop keeps all
appended graphs valid, whichever way the loop exits. -/
theorem genLoop_graphs_ok (geo : Geometry) (d : Design)
    (hwf : designWF d) (hprov : designProvenance d) :
    ∀ (L pre : List TimelineEntity) (st : RState) (prev : Nat),
    d.timeline = pre ++ L →
    LoopInv d st pre.length →
    GraphsOK (genLoop geo "PerExtrude" d (enumTL L pre.length) st prev).1.data := by
  intro L
  induction L with
  | nil =>
    intro pre st prev hsplit hinv
    exact hinv.2.1
  | cons x rest ih =>
    intro pre st prev hsplit hinv
    cases x with
    | otherEnt =>
      show GraphsOK
        (genLoop geo "PerExtrude" d (enumTL rest (pre.length + 1)) st prev).1.data
      have hother : d.timeline[pre.length]? = some TimelineEntity.otherEnt := by
        rw [hsplit]; exact getAt_append_cons pre _ rest
      have hsplit2 : d.timeline = (pre ++ [TimelineEntity.otherEnt]) ++ rest := by
        rw [hsplit, List.append_assoc]
        rfl
      have hlen : (pre ++ [TimelineEntity.otherEnt]).length = pre.length + 1 := by
        simp
      have hinv2 : LoopInv d st (pre.length + 1) := by
        refine ⟨hinv.1, hinv.2.1, ?_⟩
        intro j e2 hj hj2 f hf
        have hj3 : j < pre.length ∨ j = pre.length := by omega
        rcases hj3 with hj3 | hj3
        · exact hinv.2.2 j e2 hj3 hj2 f hf
        · subst hj3
          rw [hother] at hj2
          exact TimelineEntity.noConfusion (Option.some.inj hj2)
      have hres := ih (pre ++ [TimelineEntity.otherEnt]) st prev hsplit2
        (by rw [hlen]; exact hinv2)
      rw [hlen] at hres
      exact hres
    | extrudeEnt e =>
      have hidx : d.timeline[pre.length]? = some (TimelineEntity.extrudeEnt e) := by
        rw [hsplit]; exact getAt_append_cons pre _ rest
      have hmle : pre.length + 1 ≤ d.timeline.length := by
        rw [hsplit, List.length_append, List.length_cons]
        omega
      obtain ⟨hdist, hcoh, hclosed, hlive, hsolidm⟩ :=
        hwf (pre.length + 1) (by omega) hmle
      have hsplit2 : d.timeline = (pre ++ [TimelineEntity.extrudeEnt e]) ++ rest := by
        rw [hsplit, List.append_assoc]
        rfl
      have hlen : (pre ++ [TimelineEntity.extrudeEnt e]).length = pre.length + 1 := by
        simp
      show GraphsOK
        (genLoop geo "PerExtrude" d
          ((pre.length, TimelineEntity.extrudeEnt e) :: enumTL rest (pre.length + 1))
          st prev).1.data
      simp only [genLoop]
      rcases is_extrude_supported_cases "PerExtrude" e
          ({ st with marker := pre.length + 1 } : RState).marker with hs | ⟨r, hs⟩
      · rw [hs]
        cases hc : add_extrude_to_cache ({ st with marker := pre.length + 1 } : RState) e with
        | error er => exact hinv.2.1
        | ok stA =>
          have hmA : stA.marker = pre.length + 1 :=
            (aec_unchanged { st with marker := pre.length + 1 } e stA hc).2.1
          have hdA : stA.data = st.data :=
            (aec_unchanged { st with marker := pre.length + 1 } e stA hc).2.2.1
          have hextA : NamerExt st.namer stA.namer :=
            aec_namer_ext { st with marker := pre.length + 1 } e stA hc
          have hwfA : NamerWF stA.namer :=
            aec_namer_wf { st with marker := pre.length + 1 } e stA hc hinv.1
          have hnamesA : ∀ f ∈ reportedFaces e (pre.length + 1),
              (lookupTok stA.namer.table f.token).isSome = true :=
            aec_names { st with marker := pre.length + 1 } e stA hc
          have hfacesA : ∀ f ∈ facesAt d (pre.length + 1),
              (lookupTok stA.namer.table f.token).isSome = true := by
            intro f hf
            obtain ⟨j, hjr, e2, hj2, f2, hf2, htok⟩ := hprov pre.length e hidx f hf
            have hj : j < pre.length + 1 := List.mem_range.mp hjr
            have hj3 : j < pre.length ∨ j = pre.length := by omega
            rcases hj3 with hj3 | hj3
            · have hn := hinv.2.2 j e2 hj3 hj2 f2 hf2
              obtain ⟨u, hu⟩ := Option.isSome_iff_exists.mp hn
              have hu2 := hextA f2.token u hu
              rw [← htok, hu2]
              rfl
            · subst hj3
              rw [hidx] at hj2
              have he2 : e2 = e :=
                TimelineEntity.extrudeEnt.inj (Option.some.inj hj2.symm)
              subst he2
              rw [← htok]
              exact hnamesA f2 hf2
          cases he : add_edges_to_cache geo "PerExtrude" stA (d.bodiesAt stA.marker) with
          | error er =>
            simp only [he]
            show GraphsOK stA.data
            rw [hdA]
            exact hinv.2.1
          | ok stB =>
            simp only [he]
            rw [hmA] at he
            simp only [add_edges_to_cache] at he
            have hnmA : ∀ e2 ∈ scanAt d (pre.length + 1), ∀ f ∈ e2.faces,
                (lookupTok stA.namer.table f.token).isSome = true :=
              fun e2 he2 f hf => hfacesA f (hlive e2 he2 f hf)
            have hscan := scanEdges_good geo "PerExtrude"
              ((d.bodiesAt (pre.length + 1)).flatMap
                (fun b => name_get_temp_ids_from_collection b.concaveEdges))
              stA (scanAt d (pre.length + 1)) hcoh hnmA
              (scanAt d (pre.length + 1)) [] stA stB
              (fun e2 he2 => he2) (fun e2 he2 => absurd he2 (by simp))
              hwfA (namerExt_refl _) (fun e2 he2 => absurd he2 (by simp)) he
            obtain ⟨hwfB, hextAB, hgoodAll, hfcB, hmB, hdB, hseqB, hceiB⟩ := hscan
            have htwo := scanEdges_ok_two geo "PerExtrude" _ _ stA stB he
            have hmB2 : stB.marker = pre.length + 1 := hmB.trans hmA
            cases hg : generate_from_extrude geo "PerExtrude" d stB e with
            | error er =>
              simp only [hg]
              show GraphsOK stB.data
              rw [hdB, hdA]
              exact hinv.2.1
            | ok stC =>
              simp only [hg]
              simp only [generate_from_extrude] at hg
              rw [if_neg (by decide : ¬ ("PerExtrude" = "PerFace"))] at hg
              cases hgg : get_graph geo "PerExtrude" stB (d.bodiesAt stB.marker) with
              | error er => rw [hgg] at hg; exact absurd hg (by simp)
              | ok graph =>
                simp only [hgg, Except.ok.injEq] at hg
                rw [hmB2] at hgg
                have hnew : test_per_extrude_graph graph = true := by
                  refine get_graph_valid geo
                    ((d.bodiesAt (pre.length + 1)).flatMap
                      (fun b => name_get_temp_ids_from_collection b.concaveEdges))
                    stA stB (d.bodiesAt (pre.length + 1))
                    graph hwfB hextAB hdist hfacesA hsolidm.1
                    (fun b hb => hsolidm.2 b hb) ?_ hgg
                  intro e2 he2
                  have hcl2 := hclosed e2 he2
                  exact ⟨htwo e2 hcl2.1, hgoodAll e2 (Or.inr hcl2.1), hcl2.2⟩
                have hCnamer : stC.namer = stB.namer := by rw [← hg]
                have hCgraphs : stC.data.graphs = st.data.graphs ++ [graph] := by
                  rw [← hg, hdB, hdA]
                have hinvC : LoopInv d stC (pre.length + 1) := by
                  refine ⟨?_, ?_, ?_⟩
                  · rw [hCnamer]; exact hwfB
                  · intro g2 hg2
                    rw [hCgraphs] at hg2
                    rcases List.mem_append.mp hg2 with hg2 | hg2
                    · exact hinv.2.1 g2 hg2
                    · rw [List.mem_singleton.mp hg2]
                      exact hnew
                  · intro j e2 hj hj2 f hf
                    rw [hCnamer]
                    have hj3 : j < pre.length ∨ j = pre.length := by omega
                    rcases hj3 with hj3 | hj3
                    · have hn := hinv.2.2 j e2 hj3 hj2 f hf
                      obtain ⟨u, hu⟩ := Option.isSome_iff_exists.mp hn
                      rw [hextAB f.token u (hextA f.token u hu)]
                      rfl
                    · subst hj3
                      rw [hidx] at hj2
                      have he2 : e2 = e :=
                        TimelineEntity.extrudeEnt.inj (Option.some.inj hj2.symm)
                      subst he2
                      obtain ⟨u, hu⟩ :=
                        Option.isSome_iff_exists.mp (hnamesA f hf)
                      rw [hextAB f.token u hu]
                      rfl
                have hres := ih (pre ++ [TimelineEntity.extrudeEnt e]) stC stC.marker
                  hsplit2 (by rw [hlen]; exact hinvC)
                rw [hlen] at hres
                exact hres
      · rw [hs]
        exact hinv.2.1

/-- C1: for every graph appended to the output data's graphs list by
`PerExtrude` generation - whether the run completes, skips out on an
unsupported feature, or stops at an exception - the node identities are
pairwise distinct, every link's source and target identity appears among
the node identities, the node count is at least 3 and the link count at
least 2.  The hypotheses model the backend's B-Rep guarantees: distinct
live faces carry distinct naming tokens, the edge scan is coherent and
closed over `body.edges` with live adjacent faces, every body is a genuine
extruded solid, and every live face was reported by some already processed
extrude (provenance). -/
theorem c1_graph_invariants (geo : Geometry) (d : Design)
    (hwf : designWF d) (hprov : designProvenance d) :
    ∀ g ∈ (generate geo "PerExtrude" d).1.graphs,
      3 ≤ g.nodes.length ∧ 2 ≤ g.links.length ∧ (nodeIds g).Nodup ∧
      ∀ l ∈ g.links, ∃ s t, l.source = some s ∧ l.target = some t ∧
        s ∈ nodeIds g ∧ t ∈ nodeIds g := by
  by_cases hb : (d.bodiesAt (initState d).marker).length = 0
  · have hgen : generate geo "PerExtrude" d =
        ((initState d).data, some (.assertionError "bRepBodies.count > 0")) := by
      unfold generate
      rw [if_pos hb]
    rw [hgen]
    intro g hg
    exact absurd (show g ∈ ([] : List Graph) from hg) (by simp)
  · cases hP : prePass (initState d) d.timeline with
    | error er =>
      have hgen : generate geo "PerExtrude" d = ((initState d).data, some er) := by
        unfold generate
        rw [if_neg hb, hP]
      rw [hgen]
      intro g hg
      exact absurd (show g ∈ ([] : List Graph) from hg) (by simp)
    | ok stP =>
      rw [generate_ok_prePass geo "PerExtrude" d stP hb hP]
      by_cases hnamed : allFacesNamed stP (d.bodiesAt stP.marker) = true
      · rw [if_neg (not_not_intro hnamed)]
        have hinv0 : LoopInv d stP 0 := by
          refine ⟨?_, ?_, ?_⟩
          · exact prePass_namer_wf d.timeline _ stP hP
              ⟨fun p hp =>
                absurd (show p ∈ ([] : List (Nat × Nat)) from hp) (by simp),
                List.Pairwise.nil⟩
          · intro g hg
            rw [(prePass_unchanged d.timeline _ stP hP).1] at hg
            exact absurd (show g ∈ ([] : List Graph) from hg) (by simp)
          · intro j e2 hj
            exact absurd hj (Nat.not_lt_zero j)
        have hres : GraphsOK
            (genLoop geo "PerExtrude" d (enumTL d.timeline 0) stP 0).1.data :=
          genLoop_graphs_ok geo d hwf hprov d.timeline [] stP 0 (by simp) hinv0
        cases hG : genLoop geo "PerExtrude" d (enumTL d.timeline 0) stP 0 with
        | mk st1 out =>
          obtain ⟨prev1, reason, err⟩ := out
          rw [hG] at hres
          have hres1 : GraphsOK st1.data := hres
          cases err with
          | some er =>
            cases reason with
            | some r =>
              intro g hg
              exact test_per_extrude_graph_spec g (hres1 g hg)
            | none =>
              intro g hg
              exact test_per_extrude_graph_spec g (hres1 g hg)
          | none =>
            cases reason with
            | some r =>
              intro g hg
              exact test_per_extrude_graph_spec g (hres1 g hg)
            | none =>
              intro g hg
              have hg2 : g ∈ (generate_last geo "PerExtrude" st1).data.graphs := hg
              have hlast : (generate_last geo "PerExtrude" st1).data = st1.data := by
                unfold generate_last
                rw [if_neg (by decide : ¬ ("PerExtrude" = "PerFace"))]
              rw [hlast] at hg2
              exact test_per_extrude_graph_spec g (hres1 g hg2)
      · rw [if_pos hnamed]
        intro g hg
        rw [(prePass_unchanged d.timeline _ stP hP).1] at hg
        exact absurd (show g ∈ ([] : List Graph) from hg) (by simp)

/-- C1 witness: the box design satisfies the backend hypotheses, so every
graph its `PerExtrude` generation appends meets the invariants. -/
theorem c1_graph_invariants_witness :
    designWF boxDesign ∧ designProvenance boxDesign ∧
    ∀ g ∈ (generate geoW "PerExtrude" boxDesign).1.graphs,
      3 ≤ g.nodes.length ∧ 2 ≤ g.links.length ∧ (nodeIds g).Nodup ∧
      ∀ l ∈ g.links, ∃ s t, l.source = some s ∧ l.target = some t ∧
        s ∈ nodeIds g ∧ t ∈ nodeIds g := by
  have hwf : designWF boxDesign := by
    intro m h1 h2
    have hl : boxDesign.timeline.length = 1 := rfl
    have hm : m = 1 := by omega
    subst hm
    refine ⟨?_, ?_, ?_, ?_, ?_⟩
    · unfold tokensDistinctAt
      decide
    · unfold scanCoherentAt
      decide
    · unfold edgesClosedAt
      decide
    · unfold scanFacesLiveAt
      decide
    · unfold solidBodiesAt
      decide
  have hprov : designProvenance boxDesign := by
    intro idx e h
    cases idx with
    | zero =>
      intro f hf
      exact ⟨0, by decide, boxExtrude, rfl, f, hf, rfl⟩
    | succ n => exact absurd h (by simp [boxDesign])
  exact ⟨hwf, hprov, c1_graph_invariants geoW boxDesign hwf hprov⟩
